import Mathlib

set_option maxHeartbeats 1000000

/-!
Verification of the segment playback pipeline of `extension/content.js`
(pocket-reader).

The model is a shallow embedding of the content script's playback engine as a
small-step state machine driven by an adversarial scheduler: every outstanding
asynchronous completion (synthesis responses, audio-element events, user
messages, overlay clicks) is an event the scheduler may deliver in any order,
which matches the single-threaded browser event loop where the interleaving of
completions is not under the program's control.

Correspondence with the source:

* `Session` holds the per-call local state of one invocation of
  `readParagraphsFromIndex(paragraphs, voice, startIndex, speed, useHighlighting)`:
  the loop index `i`, the per-call `prefetchedAudio` map (its key set; the blob
  stored for key `j` is always the synthesized audio of paragraph `j`, so a blob
  is represented by its paragraph index), the set of in-flight prefetch
  synthesis calls issued by this invocation, and a program counter naming the
  `await` the invocation is suspended at.  `paragraphs` enters only through its
  length (`total`) and through which paragraph's audio is played, so a
  paragraph is identified with its index.
* `St` holds the script's module-level globals (`shouldStop`, `isPaused`,
  `isInPlaybackSession`, `playbackSpeed`, `currentAudio`, `pendingPlayback`),
  the persisted reading position for the current URL, the emitted
  notifications (`notifyExtension` calls), and three audit logs used to state
  properties: `playLog` records every `audio.play()` call, `acceptedLog`
  records every play the audio element accepted (playback started), and
  `synthLog` records every `synthesizeParagraph` request issued.
* `audioHandlers` records which invocation's `playAudioBlob` /
  `retryPlayAudioBlob` call currently has its callbacks (`onended`,
  `onerror`, `ontimeupdate`) installed on the shared audio element, and whether
  they came from the retry path (whose `onended`/`onerror` null the element).
  `clearAudioHandlers` in `stopPlayback` resets it to `none`, after which no
  audio event can be delivered to the suspended invocation.
* Showing the "Click to Start Reading" overlay (`showPlayOverlay`) is modelled
  as emitting the `needsUserGesture` notification: the DOM overlay is exactly
  the "needs user confirmation" signal surfaced to the UI collaborator, and the
  overlay button / backdrop clicks are the confirmation / cancellation events.
* Omitted as unobservable for the verified properties: highlighting and the
  paragraph control button (purely cosmetic, no feedback into the engine),
  `pendingAudioUrls` bookkeeping (object-URL lifetime), notification label
  strings (the numeric payloads are kept), and the module-level mirrors
  `currentParagraphIndex` / `totalParagraphs` (written but never read by the
  engine or the message handlers).  Fractional media times appear only in the
  70% progress trigger, modelled separately over `ℚ` (`onTimeUpdateStep`).
-/

namespace PocketReader

/-- Error messages carried by `error` notifications, abstracting the
`Error` message strings of `content.js`. -/
inductive EMsg
  | synthFailed
  | audioPlaybackError
  | playFailed
  | playbackCancelled
deriving DecidableEq, Repr

/-- Messages sent through `notifyExtension`, plus `needsUserGesture` for the
autoplay recovery overlay (see the header comment).  String labels are
dropped; numeric payloads are kept. -/
inductive Notif
  | progress (percent : Nat)
  | playing (current total : Nat)
  | paused
  | resumed
  | stopped
  | complete
  | error (m : EMsg)
  | needsUserGesture
deriving DecidableEq, Repr

/-- The `await` at which an invocation of `readParagraphsFromIndex` is
suspended (or the way it ended). -/
inductive PC
  /-- suspended at `await synthesizeParagraph(...)` for paragraph `i`
  (cache miss, line 772). -/
  | awaitSynth
  /-- state where `currentAudio.play()` has been called; its promise is unsettled. -/
  | awaitPlayStart
  /-- playback started; waiting for `onended` / `onerror` / `ontimeupdate`. -/
  | awaitPlay
  /-- state where `play()` was refused by the autoplay policy; the continuation is parked
  in `pendingPlayback` and the overlay is shown. -/
  | parked
  /-- the parked promise was rejected by the overlay backdrop click; the
  rejection has not yet been delivered to the `await`. -/
  | cancelPending
  /-- the invocation returned (completed, or broke out of the loop). -/
  | done
  /-- the invocation ended in its `catch` block. -/
  | errored
deriving DecidableEq, Repr

/-- Local state of one invocation of `readParagraphsFromIndex`. -/
structure Session where
  /-- the value of `paragraphs.length` -/
  total : Nat
  /-- the `startIndex` argument -/
  startIndex : Nat
  /-- the loop variable `i` -/
  i : Nat
  pc : PC
  /-- key set of the per-call `prefetchedAudio` map; the blob at key `j` is
  the audio of paragraph `j`. -/
  prefetchedAudio : List Nat
  /-- paragraph indices with a prefetch `synthesizeParagraph` call issued by
  this invocation and not yet settled (duplicates possible: the map records
  nothing while a call is in flight). -/
  inflight : List Nat
  /-- the `prefetchTriggered` local of the current `playAudioBlob` /
  `retryPlayAudioBlob` call. -/
  prefetchTriggered : Bool
  /-- whether the current play attempt came from `retryPlayAudioBlob`. -/
  inRetry : Bool
deriving DecidableEq, Repr

/-- Global state of the content script plus audit logs. -/
structure St where
  sessions : List Session
  shouldStop : Bool
  isPaused : Bool
  isInPlaybackSession : Bool
  playbackSpeed : Nat
  /-- whether `currentAudio !== null` -/
  currentAudio : Bool
  /-- which session's play call owns the audio element's callbacks, and
  whether it is the retry path.  `none` after `clearAudioHandlers` or while
  no element exists. -/
  audioHandlers : Option (Nat × Bool)
  /-- the `pendingPlayback` slot: the parked `(session, audioBlob)`, the blob being the
  paragraph index whose audio was parked. -/
  pendingPlayback : Option (Nat × Nat)
  /-- the Position Store entry for the current URL: `(index, total)`. -/
  readingPosition : Option (Nat × Nat)
  notifications : List Notif
  /-- audit: every `audio.play()` call `(session, paragraph)`. -/
  playLog : List (Nat × Nat)
  /-- audit: every play the element accepted `(session, paragraph)`. -/
  acceptedLog : List (Nat × Nat)
  /-- audit: every `synthesizeParagraph` request `(session, paragraph)`. -/
  synthLog : List (Nat × Nat)
deriving DecidableEq, Repr

/-- Replace the session record at index `sid`. -/
def setS (st : St) (sid : Nat) (s : Session) : St :=
  { st with sessions := st.sessions.set sid s }

/-- The function `prefetchNext(index)` (content.js 740-752): issue an asynchronous
synthesis call unless the index is out of range, the map already has a
**ready** entry, or a stop was requested.  An in-flight call leaves no trace
in the map, so it does not suppress a second request. -/
def prefetchNext (sid : Nat) (st : St) (s : Session) (index : Nat) : St × Session :=
  if index < s.total ∧ ¬s.prefetchedAudio.contains index ∧ ¬st.shouldStop then
    ({ st with synthLog := st.synthLog ++ [(sid, index)] },
     { s with inflight := s.inflight ++ [index] })
  else (st, s)

/-- The code after the `for` loop (content.js 811-819): on a stop the
invocation just returns; otherwise the reading position is cleared, the
session flag dropped and `complete` emitted. -/
def postLoop (sid : Nat) (st : St) (s : Session) : St :=
  if st.shouldStop then
    setS st sid { s with pc := .done }
  else
    let st := { st with readingPosition := none, isInPlaybackSession := false,
                        notifications := st.notifications ++ [.complete] }
    setS st sid { s with pc := .done }

/-- The function `playAudioBlob` up to the `play()` call (content.js 570-621): an early
resolve with `{stopped: true}` when a stop was already requested (then the
loop breaks, which is `postLoop` under `shouldStop`); otherwise the shared
element is (re)used, the callbacks are rebound to this invocation and
`play()` is called. -/
def startPlay (sid : Nat) (st : St) (s : Session) : St :=
  if st.shouldStop then
    setS st sid { s with pc := .done }
  else
    let st := { st with currentAudio := true, audioHandlers := some (sid, false),
                        playLog := st.playLog ++ [(sid, s.i)] }
    setS st sid { s with pc := .awaitPlayStart, prefetchTriggered := false, inRetry := false }

/-- The loop body once paragraph `i`'s blob is available (content.js 775-806):
re-check `shouldStop`, emit `playing(i+1, total)`, save the reading position,
issue the one-ahead prefetch for `i+1`, then hand the blob to the audio
element. -/
def afterBlob (sid : Nat) (st : St) (s : Session) : St :=
  if st.shouldStop then
    setS st sid { s with pc := .done }
  else
    let st := { st with notifications := st.notifications ++ [.playing (s.i + 1) s.total],
                        readingPosition := some (s.i, s.total) }
    let p := if s.i + 1 < s.total then prefetchNext sid st s (s.i + 1) else (st, s)
    startPlay sid p.1 p.2

/-- Top of a loop iteration (content.js 754-773): loop exit, `shouldStop`
break, then either consume a ready cache entry or emit a progress
notification and issue a synchronous synthesis call for paragraph `i`. -/
def loopTop (sid : Nat) (st : St) (s : Session) : St :=
  if s.total ≤ s.i then
    postLoop sid st s
  else if st.shouldStop then
    postLoop sid st s
  else if s.prefetchedAudio.contains s.i then
    afterBlob sid st { s with prefetchedAudio := s.prefetchedAudio.erase s.i }
  else
    let percent := 10 + (s.i - s.startIndex) * 80 / (s.total - s.startIndex)
    let st := { st with notifications := st.notifications ++ [.progress percent],
                        synthLog := st.synthLog ++ [(sid, s.i)] }
    setS st sid { s with pc := .awaitSynth }

/-- Resumption after `await playAudioBlob(...)` settles with
`{stopped := b}` (content.js 801-809): break on stop, otherwise advance to
the next iteration. -/
def afterPlay (sid : Nat) (st : St) (s : Session) (stopped : Bool) : St :=
  if stopped ∨ st.shouldStop then
    postLoop sid st s
  else
    loopTop sid st { s with i := s.i + 1 }

/-- The `readParagraphs` message (content.js 963-976) and the prelude of
`readParagraphsFromIndex` (701-723): reset the control flags, emit the
initial progress notification, then run the first loop iteration up to its
first suspension.  Nothing stops or checks for a previously running
invocation. -/
def spawnSession (st : St) (total startIndex speed : Nat) : St :=
  -- The freshly appended record's `pc` placeholder is never observed: the
  -- first loop iteration below stores the real suspension point before the
  -- handler returns.
  let st := { st with shouldStop := false, isPaused := false,
                      isInPlaybackSession := true, playbackSpeed := speed,
                      notifications := st.notifications ++ [Notif.progress 10] }
  let s : Session := { total := total, startIndex := startIndex, i := startIndex,
                       pc := .done, prefetchedAudio := [], inflight := [],
                       prefetchTriggered := false, inRetry := false }
  let sid := st.sessions.length
  let st := { st with sessions := st.sessions ++ [s] }
  loopTop sid st s

/-- The function `stopPlayback` (content.js 854-881): set the flags, clear the audio
element's callbacks and drop the element, discard any parked playback, and
always emit `stopped`. -/
def stopPlayback (st : St) : St :=
  let st := { st with shouldStop := true, isPaused := false, isInPlaybackSession := false }
  let st := if st.currentAudio then { st with audioHandlers := none, currentAudio := false } else st
  let st := { st with pendingPlayback := none }
  { st with notifications := st.notifications ++ [.stopped] }

/-- The `getPlaybackState` response (content.js 992-999):
`(isPlaying, isPaused, isStopped)` derived from the session and pause
flags. -/
def getPlaybackState (st : St) : Bool × Bool × Bool :=
  (st.isInPlaybackSession && !st.isPaused,
   st.isInPlaybackSession && st.isPaused,
   !st.isInPlaybackSession)

/-- Scheduler events: asynchronous completions and incoming messages. -/
inductive Ev
  /-- a `readParagraphs` message with `paragraphs.length = total`. -/
  | spawn (total startIndex speed : Nat)
  /-- the synchronous-path `synthesizeParagraph` promise resolves. -/
  | synthOk (sid : Nat)
  /-- the synchronous-path `synthesizeParagraph` promise rejects. -/
  | synthFail (sid : Nat)
  /-- a prefetch `synthesizeParagraph` call for paragraph `j` resolves. -/
  | prefetchOk (sid j : Nat)
  /-- a prefetch `synthesizeParagraph` call for paragraph `j` rejects. -/
  | prefetchFail (sid j : Nat)
  /-- the `play()` promise resolves: the element accepted the play. -/
  | playOk (sid : Nat)
  /-- the `play()` promise rejects with `NotAllowedError`. -/
  | playRefused (sid : Nat)
  /-- the `play()` promise rejects with any other error. -/
  | playErr (sid : Nat)
  /-- an `ontimeupdate` event past the 70% threshold. -/
  | time70 (sid : Nat)
  /-- the `onended` event. -/
  | ended (sid : Nat)
  /-- the `onerror` event. -/
  | audioErr (sid : Nat)
  /-- the overlay button click (`handlePlayOverlayClick`). -/
  | confirmGesture
  /-- the overlay backdrop click (cancel). -/
  | cancelGesture
  /-- delivery of the parked promise's rejection to the suspended `await`. -/
  | deliverCancel (sid : Nat)
  /-- a `stop` message. -/
  | stopMsg
  /-- a `pause` message (`pausePlayback`, content.js 886-893). -/
  | pauseMsg
  /-- a `resume` message (`resumePlayback`, content.js 898-908). -/
  | resumeMsg
  /-- a `setSpeed` message (content.js 986-991). -/
  | setSpeed (v : Nat)
deriving DecidableEq, Repr

/-- One scheduler step.  An event whose target is not in the matching
suspended state is a no-op (a stale completion finds nobody awaiting it). -/
def stepEv (st : St) : Ev → St
  | .spawn total startIndex speed => spawnSession st total startIndex speed
  | .synthOk sid =>
    match st.sessions[sid]? with
    | some s => if s.pc = .awaitSynth then afterBlob sid st s else st
    | none => st
  | .synthFail sid =>
    match st.sessions[sid]? with
    | some s =>
      if s.pc = .awaitSynth then
        let st := { st with isInPlaybackSession := false,
                            notifications := st.notifications ++ [.error .synthFailed] }
        setS st sid { s with pc := .errored }
      else st
    | none => st
  | .prefetchOk sid j =>
    match st.sessions[sid]? with
    | some s =>
      if s.inflight.contains j then
        let s := { s with inflight := s.inflight.erase j }
        let s := if ¬st.shouldStop then
            { s with prefetchedAudio :=
                if s.prefetchedAudio.contains j then s.prefetchedAudio
                else s.prefetchedAudio ++ [j] }
          else s
        setS st sid s
      else st
    | none => st
  | .prefetchFail sid j =>
    match st.sessions[sid]? with
    | some s =>
      if s.inflight.contains j then
        setS st sid { s with inflight := s.inflight.erase j }
      else st
    | none => st
  | .playOk sid =>
    match st.sessions[sid]? with
    | some s =>
      if s.pc = .awaitPlayStart then
        let st := { st with acceptedLog := st.acceptedLog ++ [(sid, s.i)] }
        setS st sid { s with pc := .awaitPlay }
      else st
    | none => st
  | .playRefused sid =>
    match st.sessions[sid]? with
    | some s =>
      if s.pc = .awaitPlayStart then
        if s.inRetry then
          let st := { st with currentAudio := false, audioHandlers := none,
                              isInPlaybackSession := false,
                              notifications := st.notifications ++ [.error .playFailed] }
          setS st sid { s with pc := .errored }
        else
          let st := { st with pendingPlayback := some (sid, s.i),
                              notifications := st.notifications ++ [.needsUserGesture] }
          setS st sid { s with pc := .parked }
      else st
    | none => st
  | .playErr sid =>
    match st.sessions[sid]? with
    | some s =>
      if s.pc = .awaitPlayStart then
        let st := if s.inRetry then { st with currentAudio := false, audioHandlers := none } else st
        let st := { st with isInPlaybackSession := false,
                            notifications := st.notifications ++ [.error .playFailed] }
        setS st sid { s with pc := .errored }
      else st
    | none => st
  | .time70 sid =>
    match st.sessions[sid]?, st.audioHandlers with
    | some s, some h =>
      if h.1 = sid ∧ s.pc = .awaitPlay ∧ s.prefetchTriggered = false then
        let s := { s with prefetchTriggered := true }
        let p := if s.i + 2 < s.total then prefetchNext sid st s (s.i + 2) else (st, s)
        setS p.1 sid p.2
      else st
    | _, _ => st
  | .ended sid =>
    match st.sessions[sid]?, st.audioHandlers with
    | some s, some h =>
      if h.1 = sid ∧ s.pc = .awaitPlay then
        let st := if h.2 then { st with currentAudio := false, audioHandlers := none } else st
        afterPlay sid st s false
      else st
    | _, _ => st
  | .audioErr sid =>
    match st.sessions[sid]?, st.audioHandlers with
    | some s, some h =>
      if h.1 = sid ∧ s.pc = .awaitPlay then
        if h.2 then
          let st := { st with currentAudio := false, audioHandlers := none,
                              isInPlaybackSession := false,
                              notifications := st.notifications ++ [.error .audioPlaybackError] }
          setS st sid { s with pc := .errored }
        else if st.shouldStop then
          afterPlay sid st s true
        else
          let st := { st with isInPlaybackSession := false,
                              notifications := st.notifications ++ [.error .audioPlaybackError] }
          setS st sid { s with pc := .errored }
      else st
    | _, _ => st
  | .confirmGesture =>
    match st.pendingPlayback with
    | some (sid, blob) =>
      let st := { st with pendingPlayback := none }
      match st.sessions[sid]? with
      | some s =>
        if s.pc = .parked then
          let st := { st with currentAudio := true, audioHandlers := some (sid, true),
                              playLog := st.playLog ++ [(sid, blob)] }
          setS st sid { s with pc := .awaitPlayStart, prefetchTriggered := false, inRetry := true }
        else st
      | none => st
    | none => st
  | .cancelGesture =>
    match st.pendingPlayback with
    | some (sid, _) =>
      let st := { st with pendingPlayback := none }
      let st :=
        match st.sessions[sid]? with
        | some s => if s.pc = .parked then setS st sid { s with pc := .cancelPending } else st
        | none => st
      stopPlayback st
    | none => st
  | .deliverCancel sid =>
    match st.sessions[sid]? with
    | some s =>
      if s.pc = .cancelPending then
        let st := { st with isInPlaybackSession := false,
                            notifications := st.notifications ++ [.error .playbackCancelled] }
        setS st sid { s with pc := .errored }
      else st
    | none => st
  | .stopMsg => stopPlayback st
  | .pauseMsg =>
    if st.currentAudio ∧ st.isPaused = false then
      { st with isPaused := true, notifications := st.notifications ++ [.paused] }
    else st
  | .resumeMsg =>
    if st.currentAudio ∧ st.isPaused = true then
      { st with isPaused := false, notifications := st.notifications ++ [.resumed] }
    else st
  | .setSpeed v => { st with playbackSpeed := v }

/-- The initial state: fresh content script, no sessions, nothing stored. -/
def initSt : St :=
  { sessions := [], shouldStop := false, isPaused := false, isInPlaybackSession := false,
    playbackSpeed := 1, currentAudio := false, audioHandlers := none,
    pendingPlayback := none, readingPosition := none, notifications := [],
    playLog := [], acceptedLog := [], synthLog := [] }

/-- Run a list of scheduler events from a given state. -/
def runFrom (st : St) (evs : List Ev) : St := evs.foldl stepEv st

/-- Run a list of scheduler events from the initial state. -/
def run (evs : List Ev) : St := runFrom initSt evs

/-- The paragraphs a given session handed to the audio element (and the
element accepted), in order. -/
def playsOf (sid : Nat) (log : List (Nat × Nat)) : List Nat :=
  (log.filter (fun e => e.1 == sid)).map (fun e => e.2)

/-- A session that has neither returned nor thrown. -/
def activeS : PC → Bool
  | .done => false
  | .errored => false
  | _ => true

/-- The `ontimeupdate` closure of `playAudioBlob` / `retryPlayAudioBlob`
(content.js 586-601, 337-351) as a fold state: the `prefetchTriggered` flag
plus a count of `onReadyToPrefetch` invocations.  An event carries
`(currentTime, duration)`. -/
structure TimeUpdateSt where
  prefetchTriggered : Bool
  fires : Nat
deriving DecidableEq, Repr

/-- One delivery of the `ontimeupdate` event. -/
def onTimeUpdateStep (t : TimeUpdateSt) (ev : ℚ × ℚ) : TimeUpdateSt :=
  if t.prefetchTriggered = false ∧ ev.2 ≠ 0 ∧ (7 : ℚ) / 10 ≤ ev.1 / ev.2 then
    { prefetchTriggered := true, fires := t.fires + 1 }
  else t

/-- Fold a sequence of `ontimeupdate` deliveries over one segment's playback,
starting from the fresh per-play state. -/
def simulateTimeUpdates (evs : List (ℚ × ℚ)) : TimeUpdateSt :=
  evs.foldl onTimeUpdateStep { prefetchTriggered := false, fires := 0 }

/-- The ordering invariant for one session record: the accepted plays of the
session form the contiguous range `startIndex, startIndex+1, …` whose length
is determined by the suspension point, and never reach beyond `total`. -/
def InvPlaysS : Option Session → List Nat → Prop
  | none, l => l = []
  | some s, l =>
      s.startIndex ≤ s.i ∧
      ((s.pc = .awaitSynth ∨ s.pc = .awaitPlayStart ∨ s.pc = .parked ∨ s.pc = .cancelPending) →
         s.i < s.total ∧ l = List.range' s.startIndex (s.i - s.startIndex)) ∧
      (s.pc = .awaitPlay →
         s.i < s.total ∧ l = List.range' s.startIndex (s.i + 1 - s.startIndex)) ∧
      ((s.pc = .done ∨ s.pc = .errored) →
         ∃ m, m ≤ s.total - s.startIndex ∧ l = List.range' s.startIndex m)

/-- The look-ahead invariant for one session record: every in-flight prefetch
call and every ready cache entry targets an index at most two beyond the
current segment. -/
def InvAheadS : Option Session → Prop
  | none => True
  | some s => (∀ j ∈ s.inflight, j ≤ s.i + 2) ∧ (∀ j ∈ s.prefetchedAudio, j ≤ s.i + 2)

/-- The global invariant: both per-session invariants, for every session slot. -/
def Inv (st : St) : Prop :=
  ∀ sid, InvPlaysS st.sessions[sid]? (playsOf sid st.acceptedLog) ∧
    InvAheadS st.sessions[sid]?

/-- A schedule in which a second `readParagraphs` start arrives while the
first session is playing its first segment: spawn, synchronous synthesis,
accepted play, then a second spawn with its own synthesis and accepted
play. -/
def c1trace : List Ev :=
  [.spawn 3 0 1, .synthOk 0, .playOk 0, .spawn 3 0 1, .synthOk 1, .playOk 1]

/-- A schedule reaching a duplicated in-flight prefetch: during segment 0
the 70% trigger requests index 2; that call is still in flight when segment
1 starts and its one-ahead trigger requests index 2 again. -/
def c3trace : List Ev :=
  [.spawn 4 0 1, .synthOk 0, .playOk 0, .time70 0, .prefetchOk 0 1, .ended 0, .playOk 0]

/-- A concrete session record used to witness `claim_C3`: segment 1 of 4 is
current and index 2 has a ready cache entry. -/
def c3sess : Session :=
  { total := 4, startIndex := 0, i := 1, pc := .awaitPlay,
    prefetchedAudio := [2], inflight := [], prefetchTriggered := false,
    inRetry := false }

/-- A full two-segment session used to witness `claim_C2`. -/
def c2trace : List Ev :=
  [.spawn 2 0 1, .synthOk 0, .playOk 0, .ended 0, .synthOk 0, .playOk 0, .ended 0]

/-- The session record `c2trace` ends in. -/
def c2sess : Session :=
  { total := 2, startIndex := 0, i := 2, pc := .done,
    prefetchedAudio := [], inflight := [1], prefetchTriggered := false,
    inRetry := false }

/-- The session of `run [.spawn 3 0 1]`, about to fetch segment 0
synchronously; used to witness the one-ahead trigger. -/
def c7sessA : Session :=
  { total := 3, startIndex := 0, i := 0, pc := .awaitSynth,
    prefetchedAudio := [], inflight := [], prefetchTriggered := false,
    inRetry := false }

/-- The session of `run [.spawn 3 0 1, .synthOk 0, .playOk 0]`, playing
segment 0; used to witness the two-ahead trigger. -/
def c7sessB : Session :=
  { total := 3, startIndex := 0, i := 0, pc := .awaitPlay,
    prefetchedAudio := [], inflight := [1], prefetchTriggered := false,
    inRetry := false }

/-- Whether an event is a start command (a `readParagraphs` message). -/
def isStart : Ev → Bool
  | .spawn _ _ _ => true
  | _ => false

/-- The session awaiting its first `play()` outcome, used to witness the
autoplay refusal. -/
def c4sessA : Session :=
  { total := 3, startIndex := 0, i := 0, pc := .awaitPlayStart,
    prefetchedAudio := [], inflight := [1], prefetchTriggered := false,
    inRetry := false }

/-- A schedule that parks segment 0 behind the user-gesture prompt. -/
def c4parkTrace : List Ev := [.spawn 3 0 1, .synthOk 0, .playRefused 0]

/-- The parked session reached by `c4parkTrace`. -/
def c4sessP : Session :=
  { total := 3, startIndex := 0, i := 0, pc := .parked,
    prefetchedAudio := [], inflight := [1], prefetchTriggered := false,
    inRetry := false }

/-- The retrying session reached by confirming after `c4parkTrace`. -/
def c4sessR : Session :=
  { total := 3, startIndex := 0, i := 0, pc := .awaitPlayStart,
    prefetchedAudio := [], inflight := [1], prefetchTriggered := false,
    inRetry := true }

/-! ### Generic helper lemmas -/

theorem playsOf_append (sid : Nat) (log : List (Nat × Nat)) (e : Nat × Nat) :
    playsOf sid (log ++ [e]) = playsOf sid log ++ (if e.1 = sid then [e.2] else []) := by
  by_cases h : e.1 = sid
  · simp [playsOf, List.filter_append, List.filter, h]
  · have hb : (e.1 == sid) = false := by simpa using h
    simp [playsOf, List.filter_append, List.filter, hb, h]

theorem playsOf_append_ne (sid : Nat) (log : List (Nat × Nat)) (e : Nat × Nat)
    (h : e.1 ≠ sid) : playsOf sid (log ++ [e]) = playsOf sid log := by
  rw [playsOf_append, if_neg h, List.append_nil]

theorem playsOf_append_eq (sid : Nat) (log : List (Nat × Nat)) (j : Nat) :
    playsOf sid (log ++ [(sid, j)]) = playsOf sid log ++ [j] := by
  rw [playsOf_append]; simp

/-- Sessions of a `setS` at another index are unchanged. -/
theorem setS_sessions_ne (st : St) (sid sid' : Nat) (s : Session) (h : sid ≠ sid') :
    (setS st sid s).sessions[sid']? = st.sessions[sid']? := by
  simp [setS, List.getElem?_set_ne h]

theorem setS_sessions_self (st : St) (sid : Nat) (s : Session) (h : sid < st.sessions.length) :
    (setS st sid s).sessions[sid]? = some s := by
  simp [setS, List.getElem?_set_self h]

theorem sid_lt_of_get {st : St} {sid : Nat} {s : Session}
    (h : st.sessions[sid]? = some s) : sid < st.sessions.length :=
  (List.getElem?_eq_some_iff.mp h).1

theorem range'_snoc {start i : Nat} (h : start ≤ i) :
    List.range' start (i - start) ++ [i] = List.range' start (i + 1 - start) := by
  have h1 : i + 1 - start = (i - start) + 1 := by omega
  have h2 : start + (i - start) = i := by omega
  rw [h1, List.range'_1_concat, h2]

/-! ### Preservation of the master invariant -/

theorem inv_congr (st st' : St) (hs : st'.sessions = st.sessions)
    (ha : st'.acceptedLog = st.acceptedLog) (h : Inv st) : Inv st' := by
  intro sid
  rw [hs, ha]
  exact h sid

theorem inv_setS (st st' : St) (sid : Nat) (s' : Session)
    (hInv : Inv st) (hlen : sid < st.sessions.length)
    (hsess : st'.sessions = st.sessions)
    (hacc : ∀ sid2, sid2 ≠ sid → playsOf sid2 st'.acceptedLog = playsOf sid2 st.acceptedLog)
    (hS : InvPlaysS (some s') (playsOf sid st'.acceptedLog))
    (hA : InvAheadS (some s')) :
    Inv (setS st' sid s') := by
  intro sid2
  have haccS : (setS st' sid s').acceptedLog = st'.acceptedLog := rfl
  by_cases h : sid2 = sid
  · subst h
    have hget : (setS st' sid2 s').sessions[sid2]? = some s' := by
      simp only [setS]
      exact List.getElem?_set_self (by rw [hsess]; exact hlen)
    rw [hget, haccS]
    exact ⟨hS, hA⟩
  · have hget : (setS st' sid s').sessions[sid2]? = st.sessions[sid2]? := by
      simp only [setS]
      rw [List.getElem?_set_ne (fun hh => h hh.symm), hsess]
    rw [hget, haccS, hacc sid2 h]
    exact hInv sid2

theorem stopPlayback_fields (st : St) :
    (stopPlayback st).sessions = st.sessions ∧
    (stopPlayback st).acceptedLog = st.acceptedLog ∧
    (stopPlayback st).readingPosition = st.readingPosition ∧
    (stopPlayback st).shouldStop = true ∧
    (stopPlayback st).notifications = st.notifications ++ [Notif.stopped] := by
  by_cases h : st.currentAudio = true <;> simp [stopPlayback, h]

theorem inv_postLoop (st : St) (sid : Nat) (s : Session) (m : Nat)
    (hInv : Inv st) (hlen : sid < st.sessions.length)
    (hm : m ≤ s.total - s.startIndex) (hsi : s.startIndex ≤ s.i)
    (hl : playsOf sid st.acceptedLog = List.range' s.startIndex m)
    (hA : InvAheadS (some s)) :
    Inv (postLoop sid st s) := by
  unfold postLoop
  split
  · refine inv_setS st st sid _ hInv hlen rfl (fun _ _ => rfl) ?_ hA
    exact ⟨hsi, fun h => by simp at h, fun h => by simp at h, fun _ => ⟨m, hm, hl⟩⟩
  · refine inv_setS st _ sid _ hInv hlen rfl (fun _ _ => rfl) ?_ hA
    exact ⟨hsi, fun h => by simp at h, fun h => by simp at h, fun _ => ⟨m, hm, hl⟩⟩

theorem inv_startPlay (st : St) (sid : Nat) (s : Session)
    (hInv : Inv st) (hlen : sid < st.sessions.length)
    (hsi : s.startIndex ≤ s.i) (hit : s.i < s.total)
    (hl : playsOf sid st.acceptedLog = List.range' s.startIndex (s.i - s.startIndex))
    (hA : InvAheadS (some s)) :
    Inv (startPlay sid st s) := by
  unfold startPlay
  split
  · refine inv_setS st st sid _ hInv hlen rfl (fun _ _ => rfl) ?_ hA
    exact ⟨hsi, fun h => by simp at h, fun h => by simp at h,
      fun _ => ⟨s.i - s.startIndex,
        (show s.i - s.startIndex ≤ s.total - s.startIndex by omega), hl⟩⟩
  · refine inv_setS st _ sid _ hInv hlen rfl (fun _ _ => rfl) ?_ hA
    exact ⟨hsi, fun _ => ⟨hit, hl⟩, fun h => by simp at h,
      fun h => by rcases h with h | h <;> simp at h⟩

theorem inv_afterBlob (st : St) (sid : Nat) (s : Session)
    (hInv : Inv st) (hlen : sid < st.sessions.length)
    (hsi : s.startIndex ≤ s.i) (hit : s.i < s.total)
    (hl : playsOf sid st.acceptedLog = List.range' s.startIndex (s.i - s.startIndex))
    (hA : InvAheadS (some s)) :
    Inv (afterBlob sid st s) := by
  unfold afterBlob
  split
  · refine inv_setS st st sid _ hInv hlen rfl (fun _ _ => rfl) ?_ hA
    exact ⟨hsi, fun h => by simp at h, fun h => by simp at h,
      fun _ => ⟨s.i - s.startIndex,
        (show s.i - s.startIndex ≤ s.total - s.startIndex by omega), hl⟩⟩
  · dsimp only
    split
    · unfold prefetchNext
      split
      · dsimp only
        refine inv_startPlay _ sid _ (inv_congr st _ rfl rfl hInv) hlen hsi hit hl ?_
        refine ⟨?_, hA.2⟩
        intro j hj
        rcases List.mem_append.mp hj with h | h
        · exact hA.1 j h
        · have hj1 : j = s.i + 1 := List.mem_singleton.mp h
          exact (show j ≤ s.i + 2 by omega)
      · exact inv_startPlay _ sid _ (inv_congr st _ rfl rfl hInv) hlen hsi hit hl hA
    · exact inv_startPlay _ sid _ (inv_congr st _ rfl rfl hInv) hlen hsi hit hl hA

theorem inv_loopTop (st : St) (sid : Nat) (s : Session)
    (hInv : Inv st) (hlen : sid < st.sessions.length)
    (hsi : s.startIndex ≤ s.i)
    (hle : s.i ≤ s.total ∨ s.i = s.startIndex)
    (hl : playsOf sid st.acceptedLog = List.range' s.startIndex (s.i - s.startIndex))
    (hA : InvAheadS (some s)) :
    Inv (loopTop sid st s) := by
  unfold loopTop
  split
  · exact inv_postLoop st sid s _ hInv hlen (by omega) hsi hl hA
  · next hge =>
    split
    · exact inv_postLoop st sid s _ hInv hlen (by omega) hsi hl hA
    · split
      · refine inv_afterBlob st sid _ hInv hlen hsi (show s.i < s.total by omega) hl ?_
        refine ⟨hA.1, ?_⟩
        intro j hj
        exact hA.2 j (List.erase_subset _ _ hj)
      · refine inv_setS st _ sid _ hInv hlen rfl (fun _ _ => rfl) ?_ hA
        exact ⟨hsi, fun _ => ⟨(show s.i < s.total by omega), hl⟩, fun h => by simp at h,
          fun h => by rcases h with h | h <;> simp at h⟩

theorem inv_afterPlay (st : St) (sid : Nat) (s : Session) (b : Bool)
    (hInv : Inv st) (hlen : sid < st.sessions.length)
    (hsi : s.startIndex ≤ s.i) (hit : s.i < s.total)
    (hl : playsOf sid st.acceptedLog = List.range' s.startIndex (s.i + 1 - s.startIndex))
    (hA : InvAheadS (some s)) :
    Inv (afterPlay sid st s b) := by
  unfold afterPlay
  split
  · exact inv_postLoop st sid s (s.i + 1 - s.startIndex) hInv hlen (by omega) hsi hl hA
  · refine inv_loopTop st sid _ hInv hlen (show s.startIndex ≤ s.i + 1 by omega)
      (Or.inl (show s.i + 1 ≤ s.total by omega)) ?_ ?_
    · exact hl
    · exact ⟨fun j hj => (show j ≤ s.i + 1 + 2 by have := hA.1 j hj; omega),
        fun j hj => (show j ≤ s.i + 1 + 2 by have := hA.2 j hj; omega)⟩

theorem inv_errS (st st' : St) (sid : Nat) (s : Session) (m : Nat)
    (hInv : Inv st) (hlen : sid < st.sessions.length)
    (hsess : st'.sessions = st.sessions) (hacc : st'.acceptedLog = st.acceptedLog)
    (hsi : s.startIndex ≤ s.i) (hm : m ≤ s.total - s.startIndex)
    (hl : playsOf sid st.acceptedLog = List.range' s.startIndex m)
    (hA : InvAheadS (some s)) :
    Inv (setS st' sid { s with pc := .errored }) := by
  refine inv_setS st st' sid _ hInv hlen hsess (fun sid2 _ => by rw [hacc]) ?_ hA
  rw [hacc]
  exact ⟨hsi, fun h => by simp at h, fun h => by simp at h, fun _ => ⟨m, hm, hl⟩⟩

theorem inv_step (st : St) (e : Ev) (hInv : Inv st) : Inv (stepEv st e) := by
  cases e with
  | spawn total startIndex speed =>
    unfold stepEv spawnSession
    dsimp only
    have hnone : st.sessions[st.sessions.length]? = none :=
      List.getElem?_eq_none (le_refl _)
    have hplaysLen : playsOf st.sessions.length st.acceptedLog = [] := by
      have h := (hInv st.sessions.length).1
      rw [hnone] at h
      exact h
    refine inv_loopTop _ st.sessions.length _ ?_ (by simp) (le_refl _) (Or.inr rfl) ?_ ?_
    · intro sid2
      dsimp only
      rcases Nat.lt_trichotomy sid2 st.sessions.length with h | h | h
      · rw [List.getElem?_append_left h]
        exact hInv sid2
      · subst h
        rw [List.getElem?_concat_length]
        refine ⟨⟨le_refl _, fun hh => by simp at hh, fun hh => by simp at hh,
          fun _ => ⟨0, Nat.zero_le _, by simp [hplaysLen]⟩⟩, by simp, by simp⟩
      · have hlen2 : ∀ x : Session, (st.sessions ++ [x]).length ≤ sid2 := by
          intro x; simp; omega
        rw [List.getElem?_eq_none (hlen2 _)]
        have hnone2 : st.sessions[sid2]? = none := List.getElem?_eq_none (by omega)
        have h2 := hInv sid2
        rw [hnone2] at h2
        exact h2
    · simpa using hplaysLen
    · exact ⟨by simp, by simp⟩
  | synthOk sid =>
    simp only [stepEv]
    cases hs : st.sessions[sid]? with
    | none => exact hInv
    | some s =>
      dsimp only
      by_cases hpc : s.pc = .awaitSynth
      · rw [if_pos hpc]
        have hP := (hInv sid).1
        have hA := (hInv sid).2
        rw [hs] at hP hA
        obtain ⟨hsi, hG1, hG2, hG3⟩ := hP
        obtain ⟨hit, hl⟩ := hG1 (Or.inl hpc)
        exact inv_afterBlob st sid s hInv (sid_lt_of_get hs) hsi hit hl hA
      · rw [if_neg hpc]
        exact hInv
  | synthFail sid =>
    simp only [stepEv]
    cases hs : st.sessions[sid]? with
    | none => exact hInv
    | some s =>
      dsimp only
      by_cases hpc : s.pc = .awaitSynth
      · rw [if_pos hpc]
        have hP := (hInv sid).1
        have hA := (hInv sid).2
        rw [hs] at hP hA
        obtain ⟨hsi, hG1, hG2, hG3⟩ := hP
        obtain ⟨hit, hl⟩ := hG1 (Or.inl hpc)
        exact inv_errS st _ sid s (s.i - s.startIndex) hInv (sid_lt_of_get hs)
          rfl rfl hsi (by omega) hl hA
      · rw [if_neg hpc]
        exact hInv
  | prefetchOk sid j =>
    simp only [stepEv]
    cases hs : st.sessions[sid]? with
    | none => exact hInv
    | some s =>
      dsimp only
      by_cases hc : s.inflight.contains j
      · rw [if_pos hc]
        have hjm : j ∈ s.inflight := by simpa using hc
        have hP := (hInv sid).1
        have hA := (hInv sid).2
        rw [hs] at hP hA
        obtain ⟨hsi, hG1, hG2, hG3⟩ := hP
        obtain ⟨hAi, hAc⟩ := hA
        refine inv_setS st st sid _ hInv (sid_lt_of_get hs) rfl (fun _ _ => rfl) ?_ ?_
        · split
          · exact ⟨hsi, hG1, hG2, hG3⟩
          · exact ⟨hsi, hG1, hG2, hG3⟩
        · split
          · refine ⟨fun k hk => hAi k (List.erase_subset _ _ hk), ?_⟩
            split
            · exact hAc
            · intro k hk
              rcases List.mem_append.mp hk with h | h
              · exact hAc k h
              · have : k = j := List.mem_singleton.mp h
                subst this
                exact hAi k hjm
          · exact ⟨fun k hk => hAi k (List.erase_subset _ _ hk), hAc⟩
      · rw [if_neg hc]
        exact hInv
  | prefetchFail sid j =>
    simp only [stepEv]
    cases hs : st.sessions[sid]? with
    | none => exact hInv
    | some s =>
      dsimp only
      by_cases hc : s.inflight.contains j
      · rw [if_pos hc]
        have hP := (hInv sid).1
        have hA := (hInv sid).2
        rw [hs] at hP hA
        obtain ⟨hsi, hG1, hG2, hG3⟩ := hP
        obtain ⟨hAi, hAc⟩ := hA
        refine inv_setS st st sid _ hInv (sid_lt_of_get hs) rfl (fun _ _ => rfl) ?_ ?_
        · exact ⟨hsi, hG1, hG2, hG3⟩
        · exact ⟨fun k hk => hAi k (List.erase_subset _ _ hk), hAc⟩
      · rw [if_neg hc]
        exact hInv
  | playOk sid =>
    simp only [stepEv]
    cases hs : st.sessions[sid]? with
    | none => exact hInv
    | some s =>
      dsimp only
      by_cases hpc : s.pc = .awaitPlayStart
      · rw [if_pos hpc]
        have hP := (hInv sid).1
        have hA := (hInv sid).2
        rw [hs] at hP hA
        obtain ⟨hsi, hG1, hG2, hG3⟩ := hP
        obtain ⟨hit, hl⟩ := hG1 (Or.inr (Or.inl hpc))
        refine inv_setS st _ sid _ hInv (sid_lt_of_get hs) rfl
          (fun sid2 h2 => playsOf_append_ne sid2 _ _ (fun hh => h2 (hh ▸ rfl))) ?_ hA
        have hpl : playsOf sid (st.acceptedLog ++ [(sid, s.i)]) =
            List.range' s.startIndex (s.i + 1 - s.startIndex) := by
          rw [playsOf_append_eq, hl, range'_snoc hsi]
        exact ⟨hsi, fun h => by simp at h, fun _ => ⟨hit, hpl⟩,
          fun h => by rcases h with h | h <;> simp at h⟩
      · rw [if_neg hpc]
        exact hInv
  | playRefused sid =>
    simp only [stepEv]
    cases hs : st.sessions[sid]? with
    | none => exact hInv
    | some s =>
      dsimp only
      by_cases hpc : s.pc = .awaitPlayStart
      · rw [if_pos hpc]
        have hP := (hInv sid).1
        have hA := (hInv sid).2
        rw [hs] at hP hA
        obtain ⟨hsi, hG1, hG2, hG3⟩ := hP
        obtain ⟨hit, hl⟩ := hG1 (Or.inr (Or.inl hpc))
        by_cases hr : s.inRetry = true
        · rw [if_pos hr]
          exact inv_errS st _ sid s (s.i - s.startIndex) hInv (sid_lt_of_get hs)
            rfl rfl hsi (by omega) hl hA
        · rw [if_neg hr]
          refine inv_setS st _ sid _ hInv (sid_lt_of_get hs) rfl (fun _ _ => rfl) ?_ hA
          exact ⟨hsi, fun _ => ⟨hit, hl⟩, fun h => by simp at h,
            fun h => by rcases h with h | h <;> simp at h⟩
      · rw [if_neg hpc]
        exact hInv
  | playErr sid =>
    simp only [stepEv]
    cases hs : st.sessions[sid]? with
    | none => exact hInv
    | some s =>
      dsimp only
      by_cases hpc : s.pc = .awaitPlayStart
      · rw [if_pos hpc]
        have hP := (hInv sid).1
        have hA := (hInv sid).2
        rw [hs] at hP hA
        obtain ⟨hsi, hG1, hG2, hG3⟩ := hP
        obtain ⟨hit, hl⟩ := hG1 (Or.inr (Or.inl hpc))
        by_cases hr : s.inRetry = true
        · rw [if_pos hr]
          exact inv_errS st _ sid s (s.i - s.startIndex) hInv (sid_lt_of_get hs)
            rfl rfl hsi (by omega) hl hA
        · rw [if_neg hr]
          exact inv_errS st _ sid s (s.i - s.startIndex) hInv (sid_lt_of_get hs)
            rfl rfl hsi (by omega) hl hA
      · rw [if_neg hpc]
        exact hInv
  | time70 sid =>
    simp only [stepEv]
    cases hs : st.sessions[sid]? with
    | none => exact hInv
    | some s =>
      cases hh : st.audioHandlers with
      | none => exact hInv
      | some h =>
        dsimp only
        by_cases hcond : h.1 = sid ∧ s.pc = .awaitPlay ∧ s.prefetchTriggered = false
        · rw [if_pos hcond]
          have hP := (hInv sid).1
          have hA := (hInv sid).2
          rw [hs] at hP hA
          obtain ⟨hsi, hG1, hG2, hG3⟩ := hP
          obtain ⟨hAi, hAc⟩ := hA
          split
          · unfold prefetchNext
            split
            · dsimp only
              refine inv_setS st _ sid _ hInv (sid_lt_of_get hs) rfl (fun _ _ => rfl) ?_ ?_
              · exact ⟨hsi, hG1, hG2, hG3⟩
              · refine ⟨?_, hAc⟩
                intro k hk
                rcases List.mem_append.mp hk with hm | hm
                · exact hAi k hm
                · have : k = s.i + 2 := List.mem_singleton.mp hm
                  exact (show k ≤ s.i + 2 by omega)
            · dsimp only
              refine inv_setS st st sid _ hInv (sid_lt_of_get hs) rfl (fun _ _ => rfl) ?_ ?_
              · exact ⟨hsi, hG1, hG2, hG3⟩
              · exact ⟨hAi, hAc⟩
          · dsimp only
            refine inv_setS st st sid _ hInv (sid_lt_of_get hs) rfl (fun _ _ => rfl) ?_ ?_
            · exact ⟨hsi, hG1, hG2, hG3⟩
            · exact ⟨hAi, hAc⟩
        · rw [if_neg hcond]
          exact hInv
  | ended sid =>
    simp only [stepEv]
    cases hs : st.sessions[sid]? with
    | none => exact hInv
    | some s =>
      cases hh : st.audioHandlers with
      | none => exact hInv
      | some h =>
        dsimp only
        by_cases hcond : h.1 = sid ∧ s.pc = .awaitPlay
        · rw [if_pos hcond]
          have hP := (hInv sid).1
          have hA := (hInv sid).2
          rw [hs] at hP hA
          obtain ⟨hsi, hG1, hG2, hG3⟩ := hP
          obtain ⟨hit, hl⟩ := hG2 hcond.2
          split
          · exact inv_afterPlay _ sid s false (inv_congr st _ rfl rfl hInv)
              (sid_lt_of_get hs) hsi hit hl hA
          · exact inv_afterPlay _ sid s false hInv (sid_lt_of_get hs) hsi hit hl hA
        · rw [if_neg hcond]
          exact hInv
  | audioErr sid =>
    simp only [stepEv]
    cases hs : st.sessions[sid]? with
    | none => exact hInv
    | some s =>
      cases hh : st.audioHandlers with
      | none => exact hInv
      | some h =>
        dsimp only
        by_cases hcond : h.1 = sid ∧ s.pc = .awaitPlay
        · rw [if_pos hcond]
          have hP := (hInv sid).1
          have hA := (hInv sid).2
          rw [hs] at hP hA
          obtain ⟨hsi, hG1, hG2, hG3⟩ := hP
          obtain ⟨hit, hl⟩ := hG2 hcond.2
          by_cases hr : h.2 = true
          · rw [if_pos hr]
            exact inv_errS st _ sid s (s.i + 1 - s.startIndex) hInv (sid_lt_of_get hs)
              rfl rfl hsi (by omega) hl hA
          · rw [if_neg hr]
            by_cases hstop : st.shouldStop = true
            · rw [if_pos hstop]
              exact inv_afterPlay st sid s true hInv (sid_lt_of_get hs) hsi hit hl hA
            · rw [if_neg hstop]
              exact inv_errS st _ sid s (s.i + 1 - s.startIndex) hInv (sid_lt_of_get hs)
                rfl rfl hsi (by omega) hl hA
        · rw [if_neg hcond]
          exact hInv
  | confirmGesture =>
    simp only [stepEv]
    cases hp : st.pendingPlayback with
    | none => exact hInv
    | some p =>
      obtain ⟨sid, blob⟩ := p
      dsimp only
      cases hs : st.sessions[sid]? with
      | none => exact inv_congr st _ rfl rfl hInv
      | some s =>
        dsimp only
        by_cases hpc : s.pc = .parked
        · rw [if_pos hpc]
          have hP := (hInv sid).1
          have hA := (hInv sid).2
          rw [hs] at hP hA
          obtain ⟨hsi, hG1, hG2, hG3⟩ := hP
          obtain ⟨hit, hl⟩ := hG1 (Or.inr (Or.inr (Or.inl hpc)))
          refine inv_setS st _ sid _ hInv (sid_lt_of_get hs) rfl (fun _ _ => rfl) ?_ hA
          exact ⟨hsi, fun _ => ⟨hit, hl⟩, fun hh => by simp at hh,
            fun hh => by rcases hh with hh | hh <;> simp at hh⟩
        · rw [if_neg hpc]
          exact inv_congr st _ rfl rfl hInv
  | cancelGesture =>
    simp only [stepEv]
    cases hp : st.pendingPlayback with
    | none => exact hInv
    | some p =>
      obtain ⟨sid, blob⟩ := p
      dsimp only
      cases hs : st.sessions[sid]? with
      | none =>
        refine inv_congr st _ ?_ ?_ hInv <;>
          simp [stopPlayback_fields]
      | some s =>
        dsimp only
        by_cases hpc : s.pc = .parked
        · rw [if_pos hpc]
          have hP := (hInv sid).1
          have hA := (hInv sid).2
          rw [hs] at hP hA
          obtain ⟨hsi, hG1, hG2, hG3⟩ := hP
          obtain ⟨hit, hl⟩ := hG1 (Or.inr (Or.inr (Or.inl hpc)))
          have hin : Inv (setS { st with pendingPlayback := none } sid
              { s with pc := .cancelPending }) := by
            refine inv_setS st _ sid _ hInv (sid_lt_of_get hs) rfl (fun _ _ => rfl) ?_ hA
            exact ⟨hsi, fun _ => ⟨hit, hl⟩, fun hh => by simp at hh,
              fun hh => by rcases hh with hh | hh <;> simp at hh⟩
          exact inv_congr _ _ (stopPlayback_fields _).1 (stopPlayback_fields _).2.1 hin
        · rw [if_neg hpc]
          refine inv_congr st _ ?_ ?_ hInv <;>
            simp [stopPlayback_fields]
  | deliverCancel sid =>
    simp only [stepEv]
    cases hs : st.sessions[sid]? with
    | none => exact hInv
    | some s =>
      dsimp only
      by_cases hpc : s.pc = .cancelPending
      · rw [if_pos hpc]
        have hP := (hInv sid).1
        have hA := (hInv sid).2
        rw [hs] at hP hA
        obtain ⟨hsi, hG1, hG2, hG3⟩ := hP
        obtain ⟨hit, hl⟩ := hG1 (Or.inr (Or.inr (Or.inr hpc)))
        exact inv_errS st _ sid s (s.i - s.startIndex) hInv (sid_lt_of_get hs)
          rfl rfl hsi (by omega) hl hA
      · rw [if_neg hpc]
        exact hInv
  | stopMsg =>
    exact inv_congr st _ (stopPlayback_fields st).1 (stopPlayback_fields st).2.1 hInv
  | pauseMsg =>
    simp only [stepEv]
    split
    · exact inv_congr st _ rfl rfl hInv
    · exact hInv
  | resumeMsg =>
    simp only [stepEv]
    split
    · exact inv_congr st _ rfl rfl hInv
    · exact hInv
  | setSpeed v =>
    exact inv_congr st _ rfl rfl hInv

theorem inv_runFrom (st : St) (evs : List Ev) (hInv : Inv st) : Inv (runFrom st evs) := by
  induction evs generalizing st with
  | nil => exact hInv
  | cons e rest ih => exact ih (stepEv st e) (inv_step st e hInv)

theorem inv_init : Inv initSt := by
  intro sid
  refine ⟨?_, ?_⟩ <;>
    simp [initSt, playsOf, List.getElem?_eq_none (show ([] : List Session).length ≤ sid by simp),
      InvPlaysS, InvAheadS]

theorem inv_run (evs : List Ev) : Inv (run evs) :=
  inv_runFrom initSt evs inv_init

/-! ### Claim C9: the `getPlaybackState` snapshot is mutually exclusive -/

/-- Claim C9: every `getPlaybackState` response has exactly one of
`isPlaying`, `isPaused`, `isStopped` set, whatever the values of the session
and pause flags. -/
theorem claim_C9 (st : St) :
    ((getPlaybackState st).1 = true ∧ (getPlaybackState st).2.1 = false ∧
        (getPlaybackState st).2.2 = false) ∨
    ((getPlaybackState st).1 = false ∧ (getPlaybackState st).2.1 = true ∧
        (getPlaybackState st).2.2 = false) ∨
    ((getPlaybackState st).1 = false ∧ (getPlaybackState st).2.1 = false ∧
        (getPlaybackState st).2.2 = true) := by
  cases h1 : st.isInPlaybackSession <;> cases h2 : st.isPaused <;>
    simp [getPlaybackState, h1, h2]

/-! ### Claim C10: the 70% prefetch callback fires at most once per play -/

theorem simulateTimeUpdates_fires_le (evs : List (ℚ × ℚ)) (t : TimeUpdateSt) :
    (evs.foldl onTimeUpdateStep t).fires ≤
      t.fires + (if t.prefetchTriggered then 0 else 1) := by
  induction evs generalizing t with
  | nil => split <;> simp
  | cons e rest ih =>
    simp only [List.foldl_cons]
    unfold onTimeUpdateStep
    split
    · next hc =>
      refine le_trans (ih _) ?_
      simp [hc.1]
    · exact le_trans (ih _) (le_refl _)

/-- Claim C10: over any sequence of `ontimeupdate` deliveries during the
playback of one segment, the `onReadyToPrefetch` callback is invoked at most
once, however many events arrive after the 0.70 threshold is crossed. -/
theorem claim_C10 (evs : List (ℚ × ℚ)) : (simulateTimeUpdates evs).fires ≤ 1 := by
  have h := simulateTimeUpdates_fires_le evs { prefetchTriggered := false, fires := 0 }
  simpa [simulateTimeUpdates] using h

/-! ### Claim C8: `stop()` on an idle engine -/

/-- Claim C8 (counterexample): calling `stop()` when no playback session is
active is not a no-op — from the pristine idle state it still emits a
`stopped` notification and changes the state. -/
theorem claim_C8_counterexample :
    initSt.isInPlaybackSession = false ∧
    getPlaybackState initSt = (false, false, true) ∧
    (stepEv initSt Ev.stopMsg).notifications = [Notif.stopped] ∧
    initSt.notifications = [] ∧
    stepEv initSt Ev.stopMsg ≠ initSt := by decide

/-- Claim C8 (amended): calling `stop()` while no playback session is active
starts nothing and leaves the observable playback snapshot, the session
records and the stored reading position unchanged, but it is not silent: it
always emits one `stopped` notification (and resets the internal flags). -/
theorem claim_C8 (st : St) (h : st.isInPlaybackSession = false) :
    (stepEv st Ev.stopMsg).notifications = st.notifications ++ [Notif.stopped] ∧
    (stepEv st Ev.stopMsg).sessions = st.sessions ∧
    (stepEv st Ev.stopMsg).readingPosition = st.readingPosition ∧
    (stepEv st Ev.stopMsg).isInPlaybackSession = false ∧
    getPlaybackState (stepEv st Ev.stopMsg) = getPlaybackState st := by
  simp only [stepEv, stopPlayback, getPlaybackState, h]
  split <;> simp [h]

/-- Witness for `claim_C8` at the pristine idle state. -/
theorem claim_C8_witness :
    initSt.isInPlaybackSession = false ∧
    ((stepEv initSt Ev.stopMsg).notifications = initSt.notifications ++ [Notif.stopped] ∧
     (stepEv initSt Ev.stopMsg).sessions = initSt.sessions ∧
     (stepEv initSt Ev.stopMsg).readingPosition = initSt.readingPosition ∧
     (stepEv initSt Ev.stopMsg).isInPlaybackSession = false ∧
     getPlaybackState (stepEv initSt Ev.stopMsg) = getPlaybackState initSt) :=
  ⟨rfl, claim_C8 initSt rfl⟩

/-! ### Claim C1: one active session at a time -/

/-- Claim C1 (counterexample): a start received while a prior session is
active is neither rejected nor preceded by the stop path: after `c1trace`
both invocations are still active, both have driven the shared audio element
(each has an accepted play), and no `stopped` notification was ever
emitted. -/
theorem claim_C1_counterexample :
    ((run c1trace).sessions[0]?).map (fun s => activeS s.pc) = some true ∧
    ((run c1trace).sessions[1]?).map (fun s => activeS s.pc) = some true ∧
    (0, 0) ∈ (run c1trace).acceptedLog ∧
    (1, 0) ∈ (run c1trace).acceptedLog ∧
    Notif.stopped ∉ (run c1trace).notifications := by decide

/-- Claim C1 (amended): the `readParagraphs` handler neither rejects a start
nor runs the stop path first: spawning a new session leaves every existing
session record untouched, clears `shouldStop` (so the prior loop is *not*
asked to stop), and emits no `stopped` notification — the old and the new
loop then run concurrently over the shared audio element. -/
theorem claim_C1 (st : St) (total startIndex speed : Nat) :
    (∀ sid, sid < st.sessions.length →
       (spawnSession st total startIndex speed).sessions[sid]? = st.sessions[sid]?) ∧
    (spawnSession st total startIndex speed).shouldStop = false ∧
    ∃ rest, (spawnSession st total startIndex speed).notifications = st.notifications ++ rest ∧
            Notif.stopped ∉ rest := by
  refine ⟨?_, ?_, ?_⟩
  · intro sid hsid
    by_cases ht : total ≤ startIndex <;>
      simp [spawnSession, loopTop, postLoop, setS, ht,
        List.getElem?_set_ne (show st.sessions.length ≠ sid by omega),
        List.getElem?_append_left hsid]
  · by_cases ht : total ≤ startIndex <;>
      simp [spawnSession, loopTop, postLoop, setS, ht]
  · by_cases ht : total ≤ startIndex
    · exact ⟨[Notif.progress 10, Notif.complete],
        by simp [spawnSession, loopTop, postLoop, setS, ht], by simp⟩
    · exact ⟨[Notif.progress 10,
        Notif.progress (10 + (startIndex - startIndex) * 80 / (total - startIndex))],
        by simp [spawnSession, loopTop, postLoop, setS, ht], by simp⟩

/-- Witness for `claim_C1` on a state with one active session. -/
theorem claim_C1_witness :
    (∀ sid, sid < (run [Ev.spawn 3 0 1]).sessions.length →
       (spawnSession (run [Ev.spawn 3 0 1]) 3 0 1).sessions[sid]? =
         (run [Ev.spawn 3 0 1]).sessions[sid]?) ∧
    (spawnSession (run [Ev.spawn 3 0 1]) 3 0 1).shouldStop = false ∧
    ∃ rest, (spawnSession (run [Ev.spawn 3 0 1]) 3 0 1).notifications =
              (run [Ev.spawn 3 0 1]).notifications ++ rest ∧
            Notif.stopped ∉ rest :=
  claim_C1 (run [Ev.spawn 3 0 1]) 3 0 1

/-! ### Claim C3: prefetch-request idempotence -/

/-- Claim C3 (counterexample): after `c3trace`, session 0 has **two**
synthesis calls in flight for index 2, and its synthesis log shows index 2
requested twice — a pending entry does not make a second request a no-op. -/
theorem claim_C3_counterexample :
    ((run c3trace).sessions[0]?).map (fun s => s.inflight) = some [2, 2] ∧
    (run c3trace).synthLog.count (0, 2) = 2 := by decide

/-- Claim C3 (amended): a prefetch request is a no-op only when a **ready**
entry for the index exists; the map records nothing while a synthesis call
is merely in flight, so when the one-ahead trigger (at segment start) and
the earlier two-ahead trigger (at 70% of the previous segment) target the
same index before the first call completes, a second synthesis request is
issued for it. -/
theorem claim_C3 (sid : Nat) (st : St) (s : Session) (index : Nat) :
    (index ∈ s.prefetchedAudio → prefetchNext sid st s index = (st, s)) ∧
    (index < s.total → index ∉ s.prefetchedAudio → st.shouldStop = false →
      (prefetchNext sid st s index).2.inflight = s.inflight ++ [index] ∧
      (prefetchNext sid st s index).1.synthLog = st.synthLog ++ [(sid, index)]) := by
  constructor
  · intro h
    unfold prefetchNext
    rw [if_neg]
    simp [List.contains, h]
  · intro h1 h2 h3
    unfold prefetchNext
    rw [if_pos]
    · exact ⟨rfl, rfl⟩
    · refine ⟨h1, ?_, by simp [h3]⟩
      simp [List.contains, h2]

/-- Witness for `claim_C3` at a concrete cache state. -/
theorem claim_C3_witness :
    ((2 : Nat) ∈ c3sess.prefetchedAudio → prefetchNext 0 initSt c3sess 2 = (initSt, c3sess)) ∧
    ((2 : Nat) < c3sess.total → (2 : Nat) ∉ c3sess.prefetchedAudio →
      initSt.shouldStop = false →
      (prefetchNext 0 initSt c3sess 2).2.inflight = c3sess.inflight ++ [2] ∧
      (prefetchNext 0 initSt c3sess 2).1.synthLog = initSt.synthLog ++ [(0, 2)]) :=
  claim_C3 0 initSt c3sess 2


/-! ### Claim C2: strictly increasing, gap-free, repeat-free delivery -/

/-- Claim C2: under **every** scheduling of synthesis completions, audio
events and messages, the segments a session hands to the audio element (and
the element accepts) are exactly `List.range' startIndex m` — the contiguous,
strictly increasing, repeat-free prefix `startIndex, startIndex+1, …` of
`[startIndex..total-1]` — for some `m ≤ total - startIndex`.  In particular a
prefetch for `k+2` completing before segment `k` finishes cannot reorder
playback: `k+1` is still delivered before `k+2`. -/
theorem claim_C2 (evs : List Ev) (sid : Nat) (s : Session)
    (hs : (run evs).sessions[sid]? = some s) :
    ∃ m, m ≤ s.total - s.startIndex ∧
      playsOf sid (run evs).acceptedLog = List.range' s.startIndex m := by
  have h := (inv_run evs sid).1
  rw [hs] at h
  obtain ⟨hsi, hG1, hG2, hG3⟩ := h
  cases hpc : s.pc with
  | awaitSynth =>
    obtain ⟨hit, hl⟩ := hG1 (Or.inl hpc)
    exact ⟨s.i - s.startIndex, by omega, hl⟩
  | awaitPlayStart =>
    obtain ⟨hit, hl⟩ := hG1 (Or.inr (Or.inl hpc))
    exact ⟨s.i - s.startIndex, by omega, hl⟩
  | parked =>
    obtain ⟨hit, hl⟩ := hG1 (Or.inr (Or.inr (Or.inl hpc)))
    exact ⟨s.i - s.startIndex, by omega, hl⟩
  | cancelPending =>
    obtain ⟨hit, hl⟩ := hG1 (Or.inr (Or.inr (Or.inr hpc)))
    exact ⟨s.i - s.startIndex, by omega, hl⟩
  | awaitPlay =>
    obtain ⟨hit, hl⟩ := hG2 hpc
    exact ⟨s.i + 1 - s.startIndex, by omega, hl⟩
  | done => exact hG3 (Or.inl hpc)
  | errored => exact hG3 (Or.inr hpc)

/-- Witness for `claim_C2`: the completed two-segment session of `c2trace`
played exactly `[0, 1] = List.range' 0 2`. -/
theorem claim_C2_witness :
    (run c2trace).sessions[0]? = some c2sess ∧
    (∃ m, m ≤ c2sess.total - c2sess.startIndex ∧
      playsOf 0 (run c2trace).acceptedLog = List.range' c2sess.startIndex m) ∧
    playsOf 0 (run c2trace).acceptedLog = [0, 1] :=
  ⟨by decide, claim_C2 c2trace 0 c2sess (by decide), by decide⟩

/-! ### Claim C7: one-ahead and two-ahead prefetch scheduling -/

/-- Claim C7: (one-ahead) at the start of segment `i` — in `afterBlob`, right
before the blob is handed to the audio element — a prefetch request for
`i+1` is issued: a fresh synthesis call unless a ready entry already exists;
(two-ahead) when the 70% progress callback of segment `i` fires, a prefetch
request for `i+2` is issued likewise; and (bound) in every reachable state
every in-flight prefetch call and every cache entry of a session targets an
index at most `i + 2` — no look-ahead beyond two segments is ever
requested. -/
theorem claim_C7 :
    (∀ (st : St) (sid : Nat) (s : Session), st.sessions[sid]? = some s →
       st.shouldStop = false → s.i + 1 < s.total →
       ((s.i + 1 ∈ s.prefetchedAudio →
           (afterBlob sid st s).synthLog = st.synthLog ∧
           ((afterBlob sid st s).sessions[sid]?).map Session.inflight = some s.inflight) ∧
        (s.i + 1 ∉ s.prefetchedAudio →
           (afterBlob sid st s).synthLog = st.synthLog ++ [(sid, s.i + 1)] ∧
           ((afterBlob sid st s).sessions[sid]?).map Session.inflight =
             some (s.inflight ++ [s.i + 1])))) ∧
    (∀ (st : St) (sid : Nat) (s : Session) (h : Nat × Bool),
       st.sessions[sid]? = some s → st.audioHandlers = some h → h.1 = sid →
       s.pc = .awaitPlay → s.prefetchTriggered = false →
       st.shouldStop = false → s.i + 2 < s.total →
       ((s.i + 2 ∈ s.prefetchedAudio →
           (stepEv st (Ev.time70 sid)).synthLog = st.synthLog) ∧
        (s.i + 2 ∉ s.prefetchedAudio →
           (stepEv st (Ev.time70 sid)).synthLog = st.synthLog ++ [(sid, s.i + 2)] ∧
           ((stepEv st (Ev.time70 sid)).sessions[sid]?).map Session.inflight =
             some (s.inflight ++ [s.i + 2])))) ∧
    (∀ (evs : List Ev) (sid : Nat) (s : Session), (run evs).sessions[sid]? = some s →
       (∀ j ∈ s.inflight, j ≤ s.i + 2) ∧ (∀ j ∈ s.prefetchedAudio, j ≤ s.i + 2)) := by
  refine ⟨?_, ?_, ?_⟩
  · intro st sid s hs hstop hlt
    have hlen : sid < st.sessions.length := sid_lt_of_get hs
    constructor
    · intro hmem
      have hc : s.prefetchedAudio.contains (s.i + 1) = true := by simpa using hmem
      unfold afterBlob
      rw [if_neg (by simp [hstop])]
      dsimp only
      rw [if_pos hlt]
      unfold prefetchNext
      rw [if_neg (fun hcond => hcond.2.1 (by simpa using hmem))]
      dsimp only
      unfold startPlay
      rw [if_neg (by simp [hstop])]
      refine ⟨rfl, ?_⟩
      simp [setS, List.getElem?_set_self hlen]
    · intro hmem
      have hc : s.prefetchedAudio.contains (s.i + 1) = false := by simpa using hmem
      unfold afterBlob
      rw [if_neg (by simp [hstop])]
      dsimp only
      rw [if_pos hlt]
      unfold prefetchNext
      rw [if_pos ⟨hlt, by simpa using hmem, by simp [hstop]⟩]
      dsimp only
      unfold startPlay
      rw [if_neg (by simp [hstop])]
      refine ⟨rfl, ?_⟩
      simp [setS, List.getElem?_set_self hlen]
  · intro st sid s h hs hh h1 hpc htr hstop hlt
    have hlen : sid < st.sessions.length := sid_lt_of_get hs
    simp only [stepEv]
    rw [hs, hh]
    dsimp only
    rw [if_pos ⟨h1, hpc, htr⟩]
    constructor
    · intro hmem
      rw [if_pos hlt]
      unfold prefetchNext
      rw [if_neg (fun hcond => hcond.2.1 (by simpa using hmem))]
      rfl
    · intro hmem
      rw [if_pos hlt]
      unfold prefetchNext
      rw [if_pos ⟨hlt, by simpa using hmem, by simp [hstop]⟩]
      refine ⟨rfl, ?_⟩
      simp [setS, List.getElem?_set_self hlen]
  · intro evs sid s hs
    have h := (inv_run evs sid).2
    rw [hs] at h
    exact h

/-- Witness for `claim_C7`: the one-ahead trigger at the start of segment 0
requests segment 1, the two-ahead trigger at 70% of segment 0 requests
segment 2, and the look-ahead bound holds for the playing session. -/
theorem claim_C7_witness :
    ((afterBlob 0 (run [Ev.spawn 3 0 1]) c7sessA).synthLog =
        (run [Ev.spawn 3 0 1]).synthLog ++ [(0, 1)] ∧
      ((afterBlob 0 (run [Ev.spawn 3 0 1]) c7sessA).sessions[0]?).map Session.inflight =
        some (c7sessA.inflight ++ [1])) ∧
    ((stepEv (run [Ev.spawn 3 0 1, Ev.synthOk 0, Ev.playOk 0]) (Ev.time70 0)).synthLog =
        (run [Ev.spawn 3 0 1, Ev.synthOk 0, Ev.playOk 0]).synthLog ++ [(0, 2)] ∧
      ((stepEv (run [Ev.spawn 3 0 1, Ev.synthOk 0, Ev.playOk 0])
          (Ev.time70 0)).sessions[0]?).map Session.inflight =
        some (c7sessB.inflight ++ [2])) ∧
    ((∀ j ∈ c7sessB.inflight, j ≤ c7sessB.i + 2) ∧
      (∀ j ∈ c7sessB.prefetchedAudio, j ≤ c7sessB.i + 2)) :=
  ⟨((claim_C7.1 (run [Ev.spawn 3 0 1]) 0 c7sessA (by decide) (by decide) (by decide)).2
      (by decide)),
   ((claim_C7.2.1 (run [Ev.spawn 3 0 1, Ev.synthOk 0, Ev.playOk 0]) 0 c7sessB (0, false)
      (by decide) (by decide) (by decide) (by decide) (by decide) (by decide) (by decide)).2
      (by decide)),
   claim_C7.2.2 [Ev.spawn 3 0 1, Ev.synthOk 0, Ev.playOk 0] 0 c7sessB (by decide)⟩


/-! ### Claim C6: prefetch failures are absorbed, only the current segment is fatal -/

/-- Claim C6: (absorb) a failed prefetch synthesis call emits no notification,
leaves the reading position and the session flag alone, and changes no
session's suspension point, position or cache — the session is not halted;
(fresh) when sequencing reaches a segment with no ready cache entry, a fresh
synchronous synthesis call is issued for it (a progress notification, not an
error); (fatal) only a failure of that synchronous call — the one for the
segment the loop is currently at — errors the session and emits the `error`
notification. -/
theorem claim_C6 :
    (∀ (st : St) (sid j : Nat),
       (stepEv st (Ev.prefetchFail sid j)).notifications = st.notifications ∧
       (stepEv st (Ev.prefetchFail sid j)).readingPosition = st.readingPosition ∧
       (stepEv st (Ev.prefetchFail sid j)).isInPlaybackSession = st.isInPlaybackSession ∧
       ∀ sid2 : Nat, ((stepEv st (Ev.prefetchFail sid j)).sessions[sid2]?).map
           (fun s : Session => (s.pc, s.i, s.prefetchedAudio)) =
         (st.sessions[sid2]?).map (fun s : Session => (s.pc, s.i, s.prefetchedAudio))) ∧
    (∀ (st : St) (sid : Nat) (s : Session), st.sessions[sid]? = some s →
       s.i < s.total → st.shouldStop = false → s.i ∉ s.prefetchedAudio →
       (loopTop sid st s).notifications = st.notifications ++
         [Notif.progress (10 + (s.i - s.startIndex) * 80 / (s.total - s.startIndex))] ∧
       (loopTop sid st s).synthLog = st.synthLog ++ [(sid, s.i)] ∧
       (loopTop sid st s).sessions[sid]? = some { s with pc := .awaitSynth }) ∧
    (∀ (st : St) (sid : Nat) (s : Session), st.sessions[sid]? = some s →
       s.pc = .awaitSynth →
       (stepEv st (Ev.synthFail sid)).notifications =
         st.notifications ++ [Notif.error .synthFailed] ∧
       (stepEv st (Ev.synthFail sid)).isInPlaybackSession = false ∧
       (stepEv st (Ev.synthFail sid)).sessions[sid]? = some { s with pc := .errored }) := by
  refine ⟨?_, ?_, ?_⟩
  · intro st sid j
    simp only [stepEv]
    cases hs : st.sessions[sid]? with
    | none => exact ⟨rfl, rfl, rfl, fun _ => rfl⟩
    | some s =>
      dsimp only
      by_cases hc : s.inflight.contains j
      · rw [if_pos hc]
        refine ⟨rfl, rfl, rfl, ?_⟩
        intro sid2
        by_cases h2 : sid2 = sid
        · subst h2
          rw [setS_sessions_self _ _ _ (sid_lt_of_get hs), hs]
          rfl
        · rw [setS_sessions_ne _ _ _ _ (fun hh => h2 hh.symm)]
      · rw [if_neg hc]
        exact ⟨rfl, rfl, rfl, fun _ => rfl⟩
  · intro st sid s hs hit hstop hmem
    unfold loopTop
    rw [if_neg (by omega)]
    rw [if_neg (by simp [hstop])]
    rw [if_neg (by simpa using hmem)]
    refine ⟨rfl, rfl, ?_⟩
    exact setS_sessions_self _ _ _ (sid_lt_of_get hs)
  · intro st sid s hs hpc
    simp only [stepEv]
    rw [hs]
    dsimp only
    rw [if_pos hpc]
    refine ⟨rfl, rfl, ?_⟩
    exact setS_sessions_self _ _ _ (sid_lt_of_get hs)

/-- Witness for `claim_C6` on a freshly spawned three-segment session whose
prefetch for segment 1 fails. -/
theorem claim_C6_witness :
    ((stepEv (run [Ev.spawn 3 0 1]) (Ev.prefetchFail 0 1)).notifications =
        (run [Ev.spawn 3 0 1]).notifications ∧
      (stepEv (run [Ev.spawn 3 0 1]) (Ev.prefetchFail 0 1)).readingPosition =
        (run [Ev.spawn 3 0 1]).readingPosition ∧
      (stepEv (run [Ev.spawn 3 0 1]) (Ev.prefetchFail 0 1)).isInPlaybackSession =
        (run [Ev.spawn 3 0 1]).isInPlaybackSession ∧
      ∀ sid2 : Nat, ((stepEv (run [Ev.spawn 3 0 1]) (Ev.prefetchFail 0 1)).sessions[sid2]?).map
          (fun s : Session => (s.pc, s.i, s.prefetchedAudio)) =
        ((run [Ev.spawn 3 0 1]).sessions[sid2]?).map
          (fun s : Session => (s.pc, s.i, s.prefetchedAudio))) ∧
    ((loopTop 0 (run [Ev.spawn 3 0 1]) c7sessA).notifications =
        (run [Ev.spawn 3 0 1]).notifications ++ [Notif.progress 10] ∧
      (loopTop 0 (run [Ev.spawn 3 0 1]) c7sessA).synthLog =
        (run [Ev.spawn 3 0 1]).synthLog ++ [(0, 0)] ∧
      (loopTop 0 (run [Ev.spawn 3 0 1]) c7sessA).sessions[0]? =
        some { c7sessA with pc := .awaitSynth }) ∧
    ((stepEv (run [Ev.spawn 3 0 1]) (Ev.synthFail 0)).notifications =
        (run [Ev.spawn 3 0 1]).notifications ++ [Notif.error .synthFailed] ∧
      (stepEv (run [Ev.spawn 3 0 1]) (Ev.synthFail 0)).isInPlaybackSession = false ∧
      (stepEv (run [Ev.spawn 3 0 1]) (Ev.synthFail 0)).sessions[0]? =
        some { c7sessA with pc := .errored }) :=
  ⟨claim_C6.1 (run [Ev.spawn 3 0 1]) 0 1,
   claim_C6.2.1 (run [Ev.spawn 3 0 1]) 0 c7sessA (by decide) (by decide) (by decide)
     (by decide),
   claim_C6.2.2 (run [Ev.spawn 3 0 1]) 0 c7sessA (by decide) (by decide)⟩


/-! ### Claim C5: stop during playback -/

/-- Under a requested stop, every loop-resumption path just breaks out of the
loop: each resume function stores the session as returned and changes nothing
else. -/
theorem chain_stopped (sid : Nat) (st : St) (s : Session) (b : Bool)
    (h : st.shouldStop = true) :
    postLoop sid st s = setS st sid { s with pc := .done } ∧
    startPlay sid st s = setS st sid { s with pc := .done } ∧
    afterBlob sid st s = setS st sid { s with pc := .done } ∧
    loopTop sid st s = setS st sid { s with pc := .done } ∧
    afterPlay sid st s b = setS st sid { s with pc := .done } := by
  have hp : postLoop sid st s = setS st sid { s with pc := .done } := by
    unfold postLoop
    rw [if_pos h]
  refine ⟨hp, ?_, ?_, ?_, ?_⟩
  · unfold startPlay
    rw [if_pos h]
  · unfold afterBlob
    rw [if_pos h]
  · unfold loopTop
    by_cases hge : s.total ≤ s.i
    · rw [if_pos hge]
      exact hp
    · rw [if_neg hge, if_pos h]
      exact hp
  · unfold afterPlay
    rw [if_pos (Or.inr h)]
    exact hp

/-- One non-start event delivered while `shouldStop` is set keeps it set,
leaves the stored reading position alone, and emits no `playing`
notification. -/
theorem step_stopped (st : St) (e : Ev) (hstop : st.shouldStop = true)
    (he : isStart e = false) :
    (stepEv st e).shouldStop = true ∧
    (stepEv st e).readingPosition = st.readingPosition ∧
    ∃ rest, (stepEv st e).notifications = st.notifications ++ rest ∧
      ∀ c t, Notif.playing c t ∉ rest := by
  have triv : (st.shouldStop = true) ∧ (st.readingPosition = st.readingPosition) ∧
      ∃ rest, st.notifications = st.notifications ++ rest ∧
        ∀ c t, Notif.playing c t ∉ rest :=
    ⟨hstop, rfl, [], by simp, by simp⟩
  cases e with
  | spawn total startIndex speed => simp [isStart] at he
  | synthOk sid =>
    simp only [stepEv]
    cases hs : st.sessions[sid]? with
    | none => exact triv
    | some s =>
      dsimp only
      by_cases hpc : s.pc = .awaitSynth
      · rw [if_pos hpc, (chain_stopped sid st s false hstop).2.2.1]
        exact ⟨hstop, rfl, [], by simp [setS], by simp⟩
      · rw [if_neg hpc]
        exact triv
  | synthFail sid =>
    simp only [stepEv]
    cases hs : st.sessions[sid]? with
    | none => exact triv
    | some s =>
      dsimp only
      by_cases hpc : s.pc = .awaitSynth
      · rw [if_pos hpc]
        exact ⟨hstop, rfl, [Notif.error .synthFailed], by simp [setS], by simp⟩
      · rw [if_neg hpc]
        exact triv
  | prefetchOk sid j =>
    simp only [stepEv]
    cases hs : st.sessions[sid]? with
    | none => exact triv
    | some s =>
      dsimp only
      by_cases hc : s.inflight.contains j
      · rw [if_pos hc]
        exact ⟨hstop, rfl, [], by simp [setS], by simp⟩
      · rw [if_neg hc]
        exact triv
  | prefetchFail sid j =>
    simp only [stepEv]
    cases hs : st.sessions[sid]? with
    | none => exact triv
    | some s =>
      dsimp only
      by_cases hc : s.inflight.contains j
      · rw [if_pos hc]
        exact ⟨hstop, rfl, [], by simp [setS], by simp⟩
      · rw [if_neg hc]
        exact triv
  | playOk sid =>
    simp only [stepEv]
    cases hs : st.sessions[sid]? with
    | none => exact triv
    | some s =>
      dsimp only
      by_cases hpc : s.pc = .awaitPlayStart
      · rw [if_pos hpc]
        exact ⟨hstop, rfl, [], by simp [setS], by simp⟩
      · rw [if_neg hpc]
        exact triv
  | playRefused sid =>
    simp only [stepEv]
    cases hs : st.sessions[sid]? with
    | none => exact triv
    | some s =>
      dsimp only
      by_cases hpc : s.pc = .awaitPlayStart
      · rw [if_pos hpc]
        by_cases hr : s.inRetry = true
        · rw [if_pos hr]
          exact ⟨hstop, rfl, [Notif.error .playFailed], by simp [setS], by simp⟩
        · rw [if_neg hr]
          exact ⟨hstop, rfl, [Notif.needsUserGesture], by simp [setS], by simp⟩
      · rw [if_neg hpc]
        exact triv
  | playErr sid =>
    simp only [stepEv]
    cases hs : st.sessions[sid]? with
    | none => exact triv
    | some s =>
      dsimp only
      by_cases hpc : s.pc = .awaitPlayStart
      · rw [if_pos hpc]
        by_cases hr : s.inRetry = true
        · rw [if_pos hr]
          exact ⟨hstop, rfl, [Notif.error .playFailed], by simp [setS], by simp⟩
        · rw [if_neg hr]
          exact ⟨hstop, rfl, [Notif.error .playFailed], by simp [setS], by simp⟩
      · rw [if_neg hpc]
        exact triv
  | time70 sid =>
    simp only [stepEv]
    cases hs : st.sessions[sid]? with
    | none => exact triv
    | some s =>
      cases hh : st.audioHandlers with
      | none => exact triv
      | some h =>
        dsimp only
        by_cases hcond : h.1 = sid ∧ s.pc = .awaitPlay ∧ s.prefetchTriggered = false
        · rw [if_pos hcond]
          split
          · unfold prefetchNext
            rw [if_neg (by simp [hstop])]
            exact ⟨hstop, rfl, [], by simp [setS], by simp⟩
          · exact ⟨hstop, rfl, [], by simp [setS], by simp⟩
        · rw [if_neg hcond]
          exact triv
  | ended sid =>
    simp only [stepEv]
    cases hs : st.sessions[sid]? with
    | none => exact triv
    | some s =>
      cases hh : st.audioHandlers with
      | none => exact triv
      | some h =>
        dsimp only
        by_cases hcond : h.1 = sid ∧ s.pc = .awaitPlay
        · rw [if_pos hcond]
          split
          · rw [(chain_stopped sid
              { st with currentAudio := false, audioHandlers := none } s false hstop).2.2.2.2]
            exact ⟨hstop, rfl, [], by simp [setS], by simp⟩
          · rw [(chain_stopped sid st s false hstop).2.2.2.2]
            exact ⟨hstop, rfl, [], by simp [setS], by simp⟩
        · rw [if_neg hcond]
          exact triv
  | audioErr sid =>
    simp only [stepEv]
    cases hs : st.sessions[sid]? with
    | none => exact triv
    | some s =>
      cases hh : st.audioHandlers with
      | none => exact triv
      | some h =>
        dsimp only
        by_cases hcond : h.1 = sid ∧ s.pc = .awaitPlay
        · rw [if_pos hcond]
          by_cases hr : h.2 = true
          · rw [if_pos hr]
            exact ⟨hstop, rfl, [Notif.error .audioPlaybackError], by simp [setS], by simp⟩
          · rw [if_neg hr, if_pos hstop]
            rw [(chain_stopped sid st s true hstop).2.2.2.2]
            exact ⟨hstop, rfl, [], by simp [setS], by simp⟩
        · rw [if_neg hcond]
          exact triv
  | confirmGesture =>
    simp only [stepEv]
    cases hp : st.pendingPlayback with
    | none => exact triv
    | some p =>
      obtain ⟨sid, blob⟩ := p
      dsimp only
      cases hs : st.sessions[sid]? with
      | none => exact ⟨hstop, rfl, [], by simp, by simp⟩
      | some s =>
        dsimp only
        by_cases hpc : s.pc = .parked
        · rw [if_pos hpc]
          exact ⟨hstop, rfl, [], by simp [setS], by simp⟩
        · rw [if_neg hpc]
          exact ⟨hstop, rfl, [], by simp, by simp⟩
  | cancelGesture =>
    simp only [stepEv]
    cases hp : st.pendingPlayback with
    | none => exact triv
    | some p =>
      obtain ⟨sid, blob⟩ := p
      dsimp only
      cases hs : st.sessions[sid]? with
      | none =>
        refine ⟨(stopPlayback_fields _).2.2.2.1, ?_, [Notif.stopped], ?_, by simp⟩
        · rw [(stopPlayback_fields _).2.2.1]
        · rw [(stopPlayback_fields _).2.2.2.2]
      | some s =>
        dsimp only
        by_cases hpc : s.pc = .parked
        · rw [if_pos hpc]
          refine ⟨(stopPlayback_fields _).2.2.2.1, ?_, [Notif.stopped], ?_, by simp⟩
          · rw [(stopPlayback_fields _).2.2.1]
            simp [setS]
          · rw [(stopPlayback_fields _).2.2.2.2]
            simp [setS]
        · rw [if_neg hpc]
          refine ⟨(stopPlayback_fields _).2.2.2.1, ?_, [Notif.stopped], ?_, by simp⟩
          · rw [(stopPlayback_fields _).2.2.1]
          · rw [(stopPlayback_fields _).2.2.2.2]
  | deliverCancel sid =>
    simp only [stepEv]
    cases hs : st.sessions[sid]? with
    | none => exact triv
    | some s =>
      dsimp only
      by_cases hpc : s.pc = .cancelPending
      · rw [if_pos hpc]
        exact ⟨hstop, rfl, [Notif.error .playbackCancelled], by simp [setS], by simp⟩
      · rw [if_neg hpc]
        exact triv
  | stopMsg =>
    refine ⟨(stopPlayback_fields _).2.2.2.1, ?_, [Notif.stopped], ?_, by simp⟩
    · exact (stopPlayback_fields _).2.2.1
    · exact (stopPlayback_fields _).2.2.2.2
  | pauseMsg =>
    simp only [stepEv]
    split
    · exact ⟨hstop, rfl, [Notif.paused], by simp, by simp⟩
    · exact triv
  | resumeMsg =>
    simp only [stepEv]
    split
    · exact ⟨hstop, rfl, [Notif.resumed], by simp, by simp⟩
    · exact triv
  | setSpeed v => exact triv

/-- Iterating `step_stopped` over any start-free schedule. -/
theorem runFrom_stopped (evs : List Ev) (st : St) (hstop : st.shouldStop = true)
    (he : ∀ e ∈ evs, isStart e = false) :
    (runFrom st evs).shouldStop = true ∧
    (runFrom st evs).readingPosition = st.readingPosition ∧
    ∃ rest, (runFrom st evs).notifications = st.notifications ++ rest ∧
      ∀ c t, Notif.playing c t ∉ rest := by
  induction evs generalizing st with
  | nil => exact ⟨hstop, rfl, [], by simp [runFrom], by simp⟩
  | cons e rest ih =>
    obtain ⟨h1, h2, r1, hr1, hnp1⟩ :=
      step_stopped st e hstop (he e (List.mem_cons_self e rest))
    obtain ⟨g1, g2, r2, hr2, hnp2⟩ :=
      ih (stepEv st e) h1 (fun e2 he2 => he e2 (List.mem_cons_of_mem e he2))
    have hre : runFrom st (e :: rest) = runFrom (stepEv st e) rest := rfl
    refine ⟨by rw [hre]; exact g1, by rw [hre, g2, h2], r1 ++ r2, ?_, ?_⟩
    · rw [hre, hr2, hr1, List.append_assoc]
    · intro c t hct
      rcases List.mem_append.mp hct with h | h
      · exact hnp1 c t h
      · exact hnp2 c t h

/-- Claim C5: a `stop` while a segment is playing emits a `stopped`
notification, leaves the stored reading position exactly as the last save
before the stop, and — for as long as no new start command arrives — no
`playing` notification is ever emitted again, so once `playing(k, total)`
was the last one, neither `playing(k+1, total)` nor any later one ever
fires. -/
theorem claim_C5 (st : St) (evs : List Ev)
    (he : ∀ e ∈ evs, isStart e = false) :
    Notif.stopped ∈ (stepEv st Ev.stopMsg).notifications ∧
    (stepEv st Ev.stopMsg).readingPosition = st.readingPosition ∧
    (runFrom (stepEv st Ev.stopMsg) evs).readingPosition = st.readingPosition ∧
    ∃ rest, (runFrom (stepEv st Ev.stopMsg) evs).notifications =
        (stepEv st Ev.stopMsg).notifications ++ rest ∧
      ∀ c t, Notif.playing c t ∉ rest := by
  have hf := stopPlayback_fields st
  have hstep : stepEv st Ev.stopMsg = stopPlayback st := rfl
  obtain ⟨g1, g2, rest, hr, hnp⟩ :=
    runFrom_stopped evs (stepEv st Ev.stopMsg) (by rw [hstep]; exact hf.2.2.2.1) he
  refine ⟨?_, ?_, ?_, rest, hr, hnp⟩
  · rw [hstep, hf.2.2.2.2]
    simp
  · rw [hstep, hf.2.2.1]
  · rw [g2, hstep, hf.2.2.1]

/-- Witness for `claim_C5`: stop arrives while segment 1 of 3 is playing and
the position store holds `save(index = 0)`; the stop-free continuation
delivers the stale audio events and synthesis completions. -/
theorem claim_C5_witness :
    (run [Ev.spawn 3 0 1, Ev.synthOk 0, Ev.playOk 0]).readingPosition = some (0, 3) ∧
    (∀ e ∈ [Ev.ended 0, Ev.prefetchOk 0 1, Ev.synthOk 0, Ev.playOk 0, Ev.time70 0],
       isStart e = false) ∧
    (Notif.stopped ∈
        (stepEv (run [Ev.spawn 3 0 1, Ev.synthOk 0, Ev.playOk 0]) Ev.stopMsg).notifications ∧
      (stepEv (run [Ev.spawn 3 0 1, Ev.synthOk 0, Ev.playOk 0]) Ev.stopMsg).readingPosition =
        (run [Ev.spawn 3 0 1, Ev.synthOk 0, Ev.playOk 0]).readingPosition ∧
      (runFrom (stepEv (run [Ev.spawn 3 0 1, Ev.synthOk 0, Ev.playOk 0]) Ev.stopMsg)
          [Ev.ended 0, Ev.prefetchOk 0 1, Ev.synthOk 0, Ev.playOk 0, Ev.time70 0]).readingPosition =
        (run [Ev.spawn 3 0 1, Ev.synthOk 0, Ev.playOk 0]).readingPosition ∧
      ∃ rest, (runFrom (stepEv (run [Ev.spawn 3 0 1, Ev.synthOk 0, Ev.playOk 0]) Ev.stopMsg)
          [Ev.ended 0, Ev.prefetchOk 0 1, Ev.synthOk 0, Ev.playOk 0, Ev.time70 0]).notifications =
          (stepEv (run [Ev.spawn 3 0 1, Ev.synthOk 0, Ev.playOk 0]) Ev.stopMsg).notifications ++ rest ∧
        ∀ c t, Notif.playing c t ∉ rest) :=
  ⟨by decide, by decide,
   claim_C5 (run [Ev.spawn 3 0 1, Ev.synthOk 0, Ev.playOk 0])
     [Ev.ended 0, Ev.prefetchOk 0 1, Ev.synthOk 0, Ev.playOk 0, Ev.time70 0] (by decide)⟩



/-! ### Claim C4: autoplay refusal recovery -/

theorem stopPlayback_pending (st : St) : (stopPlayback st).pendingPlayback = none := by
  by_cases h : st.currentAudio = true <;> simp [stopPlayback, h]

theorem postLoop_core (sid : Nat) (st : St) (s : Session)
    (hlen : sid < st.sessions.length) :
    ∃ s', (postLoop sid st s).sessions[sid]? = some s' ∧ s'.i = s.i := by
  unfold postLoop
  split
  · exact ⟨_, setS_sessions_self _ _ _ hlen, rfl⟩
  · exact ⟨_, setS_sessions_self _ _ _ hlen, rfl⟩

theorem startPlay_core (sid : Nat) (st : St) (s : Session)
    (hlen : sid < st.sessions.length) :
    ∃ s', (startPlay sid st s).sessions[sid]? = some s' ∧ s'.i = s.i := by
  unfold startPlay
  split
  · exact ⟨_, setS_sessions_self _ _ _ hlen, rfl⟩
  · exact ⟨_, setS_sessions_self _ _ _ hlen, rfl⟩

theorem afterBlob_core (sid : Nat) (st : St) (s : Session)
    (hlen : sid < st.sessions.length) :
    ∃ s', (afterBlob sid st s).sessions[sid]? = some s' ∧ s'.i = s.i := by
  unfold afterBlob
  split
  · exact ⟨_, setS_sessions_self _ _ _ hlen, rfl⟩
  · dsimp only
    split
    · unfold prefetchNext
      split
      · dsimp only
        exact startPlay_core sid _ _ hlen
      · exact startPlay_core sid _ s hlen
    · exact startPlay_core sid _ s hlen

theorem loopTop_core (sid : Nat) (st : St) (s : Session)
    (hlen : sid < st.sessions.length) :
    ∃ s', (loopTop sid st s).sessions[sid]? = some s' ∧ s'.i = s.i := by
  unfold loopTop
  split
  · exact postLoop_core sid st s hlen
  · split
    · exact postLoop_core sid st s hlen
    · split
      · exact afterBlob_core sid st _ hlen
      · exact ⟨_, setS_sessions_self _ _ _ hlen, rfl⟩

theorem playOk_eq (st : St) (sid : Nat) (s : Session) (hs : st.sessions[sid]? = some s)
    (hpc : s.pc = .awaitPlayStart) :
    stepEv st (Ev.playOk sid) =
      setS { st with acceptedLog := st.acceptedLog ++ [(sid, s.i)] } sid
        { s with pc := .awaitPlay } := by
  simp only [stepEv]
  rw [hs]
  dsimp only
  rw [if_pos hpc]

/-- Claim C4: an autoplay refusal is not fatal — (park) a `NotAllowedError`
from `play()` parks the pending play as `pendingPlayback`, shows the
user-gesture prompt exactly once (one `needsUserGesture`, no `error`), and
leaves the current segment un-advanced; (retry) a user confirmation retries
the play with exactly the parked audio data and marks the attempt as the
retry; (once) a refusal of the retried play does **not** park again — it
fails the session; (continue) confirmation followed by an accepted play and
its `ended` event advances sequencing to the next segment; (cancel) a
cancellation runs the stop path (a `stopped` notification, `shouldStop`
set, the parked playback dropped) and the delivered rejection ends the
parked invocation with the cancellation error. -/
theorem claim_C4 :
    (∀ (st : St) (sid : Nat) (s : Session), st.sessions[sid]? = some s →
       s.pc = .awaitPlayStart → s.inRetry = false →
       (stepEv st (Ev.playRefused sid)).notifications =
         st.notifications ++ [Notif.needsUserGesture] ∧
       (stepEv st (Ev.playRefused sid)).pendingPlayback = some (sid, s.i) ∧
       (stepEv st (Ev.playRefused sid)).sessions[sid]? = some { s with pc := .parked } ∧
       (stepEv st (Ev.playRefused sid)).readingPosition = st.readingPosition) ∧
    (∀ (st : St) (sid blob : Nat) (s : Session), st.pendingPlayback = some (sid, blob) →
       st.sessions[sid]? = some s → s.pc = .parked →
       (stepEv st Ev.confirmGesture).playLog = st.playLog ++ [(sid, blob)] ∧
       (stepEv st Ev.confirmGesture).pendingPlayback = none ∧
       (stepEv st Ev.confirmGesture).sessions[sid]? =
         some { s with pc := .awaitPlayStart, prefetchTriggered := false, inRetry := true } ∧
       (stepEv st Ev.confirmGesture).notifications = st.notifications) ∧
    (∀ (st : St) (sid : Nat) (s : Session), st.sessions[sid]? = some s →
       s.pc = .awaitPlayStart → s.inRetry = true →
       (stepEv st (Ev.playRefused sid)).notifications =
         st.notifications ++ [Notif.error .playFailed] ∧
       (stepEv st (Ev.playRefused sid)).pendingPlayback = st.pendingPlayback ∧
       (stepEv st (Ev.playRefused sid)).sessions[sid]? = some { s with pc := .errored }) ∧
    (∀ (st : St) (sid blob : Nat) (s : Session), st.pendingPlayback = some (sid, blob) →
       st.sessions[sid]? = some s → s.pc = .parked → st.shouldStop = false →
       ∃ s', (runFrom st [Ev.confirmGesture, Ev.playOk sid, Ev.ended sid]).sessions[sid]? =
           some s' ∧ s'.i = s.i + 1) ∧
    (∀ (st : St) (sid blob : Nat) (s : Session), st.pendingPlayback = some (sid, blob) →
       st.sessions[sid]? = some s → s.pc = .parked →
       Notif.stopped ∈ (stepEv st Ev.cancelGesture).notifications ∧
       (stepEv st Ev.cancelGesture).shouldStop = true ∧
       (stepEv st Ev.cancelGesture).pendingPlayback = none ∧
       (stepEv (stepEv st Ev.cancelGesture) (Ev.deliverCancel sid)).notifications =
         (stepEv st Ev.cancelGesture).notifications ++ [Notif.error .playbackCancelled] ∧
       ((stepEv (stepEv st Ev.cancelGesture) (Ev.deliverCancel sid)).sessions[sid]?).map
         Session.pc = some PC.errored) := by
  refine ⟨?_, ?_, ?_, ?_, ?_⟩
  · intro st sid s hs hpc hr
    have hlen : sid < st.sessions.length := sid_lt_of_get hs
    simp only [stepEv]
    rw [hs]
    dsimp only
    rw [if_pos hpc, if_neg (by simp [hr])]
    exact ⟨by simp [setS], rfl, setS_sessions_self _ _ _ hlen, rfl⟩
  · intro st sid blob s hp hs hpc
    have hlen : sid < st.sessions.length := sid_lt_of_get hs
    simp only [stepEv]
    rw [hp]
    dsimp only
    rw [hs]
    dsimp only
    rw [if_pos hpc]
    exact ⟨by simp [setS], rfl, setS_sessions_self _ _ _ hlen, rfl⟩
  · intro st sid s hs hpc hr
    have hlen : sid < st.sessions.length := sid_lt_of_get hs
    simp only [stepEv]
    rw [hs]
    dsimp only
    rw [if_pos hpc, if_pos hr]
    exact ⟨by simp [setS], rfl, setS_sessions_self _ _ _ hlen⟩
  · intro st sid blob s hp hs hpc hstop
    have hlen : sid < st.sessions.length := sid_lt_of_get hs
    have h1 : stepEv st Ev.confirmGesture =
        setS { st with pendingPlayback := none, currentAudio := true,
                       audioHandlers := some (sid, true),
                       playLog := st.playLog ++ [(sid, blob)] } sid
          { s with pc := .awaitPlayStart, prefetchTriggered := false, inRetry := true } := by
      simp only [stepEv]
      rw [hp]
      dsimp only
      rw [hs]
      dsimp only
      rw [if_pos hpc]
    have hget1 : (stepEv st Ev.confirmGesture).sessions[sid]? =
        some { s with pc := .awaitPlayStart, prefetchTriggered := false, inRetry := true } := by
      rw [h1]
      exact setS_sessions_self _ _ _ hlen
    have hlen1 : sid < (stepEv st Ev.confirmGesture).sessions.length := sid_lt_of_get hget1
    have h2 : stepEv (stepEv st Ev.confirmGesture) (Ev.playOk sid) =
        setS { (stepEv st Ev.confirmGesture) with
               acceptedLog := (stepEv st Ev.confirmGesture).acceptedLog ++ [(sid, s.i)] } sid
          { s with pc := .awaitPlay, prefetchTriggered := false, inRetry := true } :=
      playOk_eq (stepEv st Ev.confirmGesture) sid _ hget1 rfl
    have hget2 : (stepEv (stepEv st Ev.confirmGesture) (Ev.playOk sid)).sessions[sid]? =
        some { s with pc := .awaitPlay, prefetchTriggered := false, inRetry := true } := by
      rw [h2]
      exact setS_sessions_self _ _ _ hlen1
    have hh2 : (stepEv (stepEv st Ev.confirmGesture) (Ev.playOk sid)).audioHandlers =
        some (sid, true) := by
      rw [h2, h1]
      rfl
    have hrun : runFrom st [Ev.confirmGesture, Ev.playOk sid, Ev.ended sid] =
        stepEv (stepEv (stepEv st Ev.confirmGesture) (Ev.playOk sid)) (Ev.ended sid) := rfl
    rw [hrun]
    have hstop2 : (stepEv (stepEv st Ev.confirmGesture) (Ev.playOk sid)).shouldStop = false := by
      rw [h2, h1]
      simpa [setS] using hstop
    have hlen2 : sid < (stepEv (stepEv st Ev.confirmGesture) (Ev.playOk sid)).sessions.length :=
      sid_lt_of_get hget2
    generalize hH : stepEv (stepEv st Ev.confirmGesture) (Ev.playOk sid) = st2
    rw [hH] at hget2 hh2 hstop2 hlen2
    simp only [stepEv]
    rw [hget2, hh2]
    dsimp only
    rw [if_pos ⟨rfl, rfl⟩, if_pos rfl]
    unfold afterPlay
    rw [if_neg (by simp [hstop2])]
    exact loopTop_core sid _ _ hlen2
  · intro st sid blob s hp hs hpc
    have hlen : sid < st.sessions.length := sid_lt_of_get hs
    have h1 : stepEv st Ev.cancelGesture =
        stopPlayback (setS { st with pendingPlayback := none } sid
          { s with pc := .cancelPending }) := by
      simp only [stepEv]
      rw [hp]
      dsimp only
      rw [hs]
      dsimp only
      rw [if_pos hpc]
    have hgetc : (stepEv st Ev.cancelGesture).sessions[sid]? =
        some { s with pc := .cancelPending } := by
      rw [h1, (stopPlayback_fields _).1]
      exact setS_sessions_self _ _ _ hlen
    have hlenc : sid < (stepEv st Ev.cancelGesture).sessions.length := sid_lt_of_get hgetc
    refine ⟨?_, ?_, ?_, ?_, ?_⟩
    · rw [h1, (stopPlayback_fields _).2.2.2.2]
      simp
    · rw [h1]
      exact (stopPlayback_fields _).2.2.2.1
    · rw [h1]
      exact stopPlayback_pending _
    · generalize hH : stepEv st Ev.cancelGesture = stc
      rw [hH] at hgetc
      simp only [stepEv]
      rw [hgetc]
      dsimp only
      rw [if_pos rfl]
      simp [setS]
    · generalize hH : stepEv st Ev.cancelGesture = stc
      rw [hH] at hgetc hlenc
      simp only [stepEv]
      rw [hgetc]
      dsimp only
      rw [if_pos rfl]
      simp [setS, hlenc]

/-- Witness for `claim_C4` against the concrete parked scenario of a
three-segment session refused on segment 0. -/
theorem claim_C4_witness :
    ((stepEv (run [Ev.spawn 3 0 1, Ev.synthOk 0]) (Ev.playRefused 0)).notifications =
        (run [Ev.spawn 3 0 1, Ev.synthOk 0]).notifications ++ [Notif.needsUserGesture] ∧
      (stepEv (run [Ev.spawn 3 0 1, Ev.synthOk 0]) (Ev.playRefused 0)).pendingPlayback =
        some (0, 0) ∧
      (stepEv (run [Ev.spawn 3 0 1, Ev.synthOk 0]) (Ev.playRefused 0)).sessions[0]? =
        some { c4sessA with pc := .parked } ∧
      (stepEv (run [Ev.spawn 3 0 1, Ev.synthOk 0]) (Ev.playRefused 0)).readingPosition =
        (run [Ev.spawn 3 0 1, Ev.synthOk 0]).readingPosition) ∧
    ((stepEv (run c4parkTrace) Ev.confirmGesture).playLog =
        (run c4parkTrace).playLog ++ [(0, 0)] ∧
      (stepEv (run c4parkTrace) Ev.confirmGesture).pendingPlayback = none ∧
      (stepEv (run c4parkTrace) Ev.confirmGesture).sessions[0]? =
        some { c4sessP with pc := .awaitPlayStart, prefetchTriggered := false, inRetry := true } ∧
      (stepEv (run c4parkTrace) Ev.confirmGesture).notifications =
        (run c4parkTrace).notifications) ∧
    ((stepEv (run (c4parkTrace ++ [Ev.confirmGesture])) (Ev.playRefused 0)).notifications =
        (run (c4parkTrace ++ [Ev.confirmGesture])).notifications ++ [Notif.error .playFailed] ∧
      (stepEv (run (c4parkTrace ++ [Ev.confirmGesture])) (Ev.playRefused 0)).pendingPlayback =
        (run (c4parkTrace ++ [Ev.confirmGesture])).pendingPlayback ∧
      (stepEv (run (c4parkTrace ++ [Ev.confirmGesture])) (Ev.playRefused 0)).sessions[0]? =
        some { c4sessR with pc := .errored }) ∧
    (∃ s', (runFrom (run c4parkTrace)
        [Ev.confirmGesture, Ev.playOk 0, Ev.ended 0]).sessions[0]? = some s' ∧
      s'.i = c4sessP.i + 1) ∧
    (Notif.stopped ∈ (stepEv (run c4parkTrace) Ev.cancelGesture).notifications ∧
      (stepEv (stepEv (run c4parkTrace) Ev.cancelGesture)
          (Ev.deliverCancel 0)).notifications =
        (stepEv (run c4parkTrace) Ev.cancelGesture).notifications ++
          [Notif.error .playbackCancelled]) :=
  ⟨claim_C4.1 (run [Ev.spawn 3 0 1, Ev.synthOk 0]) 0 c4sessA (by decide) (by decide)
     (by decide),
   claim_C4.2.1 (run c4parkTrace) 0 0 c4sessP (by decide) (by decide) (by decide),
   claim_C4.2.2.1 (run (c4parkTrace ++ [Ev.confirmGesture])) 0 c4sessR (by decide)
     (by decide) (by decide),
   claim_C4.2.2.2.1 (run c4parkTrace) 0 0 c4sessP (by decide) (by decide) (by decide)
     (by decide),
   (claim_C4.2.2.2.2 (run c4parkTrace) 0 0 c4sessP (by decide) (by decide) (by decide)).1,
   (claim_C4.2.2.2.2 (run c4parkTrace) 0 0 c4sessP (by decide) (by decide)
     (by decide)).2.2.2.1⟩

end PocketReader
